import Mathlib

/-!
# Exporter helper and obsreport: a shallow embedding

Embedding of `exporter/exporterhelper/common.go` (timeout sender, base
settings and options, base exporter lifecycle) and of the receiver, exporter
and scraper operations and the processor metric names of the observability
reporter exercised by `obsreport/obsreport_test.go`.

Stateful Go code is embedded as explicit state passing over a `World`.
Every call that crosses an interface boundary (the request's methods, the
wrapped component, the queued-retry sender, the context package) is recorded
in the world's `log`, in program order, so that "is called", "exactly once"
and "before" are statements about that log.
-/

/-! ## Go values shared by both packages -/

/-- Go `error` values that occur in the sources: `errors.New(msg)` and
`scrapererror.NewPartialScrapeError(err, failed)`.  A nil error is `none`
of `Option Error`. -/
inductive Error where
  | new (msg : String)
  | PartialScrapeError (err : Error) (Failed : Int)
deriving DecidableEq, Repr

/-- Go `time.Duration`: a count of nanoseconds. -/
abbrev Duration := Int

/-- Go `time.Second` in nanoseconds. -/
def Second : Duration := 1000000000

/-- Wall-clock instants, in nanoseconds. -/
abbrev Time := Int

/-- Go `context.Context` values.  `background` carries an optional deadline
set by the caller; `cancelCtx` and `timerCtx` are the two derived contexts the
standard library's `WithDeadline` can return, each with the identity `id` of
its cancel function. -/
inductive Context where
  | background (name : String) (deadline : Option Time)
  | cancelCtx (id : Nat) (parent : Context)
  | timerCtx (id : Nat) (parent : Context) (deadline : Time)
deriving DecidableEq, Repr

namespace Context

/-- Method `ctx.Deadline()`: a cancel context inherits its parent's deadline. -/
def Deadline : Context → Option Time
  | background _ d => d
  | cancelCtx _ p => Deadline p
  | timerCtx _ _ d => some d

/-- The context a derived context was derived from. -/
def parent : Context → Option Context
  | background _ _ => none
  | cancelCtx _ p => some p
  | timerCtx _ p _ => some p

/-- Identity of the cancel function of a derived context. -/
def cancelID : Context → Option Nat
  | background _ _ => none
  | cancelCtx i _ => some i
  | timerCtx i _ _ => some i

end Context

/-- The earlier of an optional deadline and an instant. -/
def earlier : Option Time → Time → Time
  | none, t => t
  | some d, t => if d < t then d else t

/-- Calls that cross an interface boundary, as recorded in the log. -/
inductive Event where
  | reqContext
  | reqSetContext (ctx : Context)
  | reqExport (ctx : Context)
  | withTimeout (parent : Context) (timeout : Duration)
  | cancel (id : Nat)
  | componentStart
  | qrSenderStart
  | qrSenderShutdown
  | componentShutdown
deriving DecidableEq, Repr

/-- Everything outside the function under study: `user` is the state owned by
the implementations behind the interfaces (request fields, backend, component),
`now` the wall clock, `nextID` the next unused cancel-function identity,
`cancelled` the cancel functions that have run, `log` the calls so far
(oldest first). -/
structure World (σ : Type) where
  user : σ
  now : Time
  nextID : Nat
  cancelled : List Nat
  log : List Event

namespace World

/-- Append one event to the log. -/
def emit {σ : Type} (w : World σ) (e : Event) : World σ :=
  { w with log := w.log ++ [e] }

end World

/-- Contexts handed to `export`, in call order. -/
def exportCalls : List Event → List Context
  | [] => []
  | Event.reqExport c :: es => c :: exportCalls es
  | _ :: es => exportCalls es

/-- Contexts written with `setContext`, in call order. -/
def setContextCalls : List Event → List Context
  | [] => []
  | Event.reqSetContext c :: es => c :: setContextCalls es
  | _ :: es => setContextCalls es

/-- Parents and durations handed to `context.WithTimeout`, in call order. -/
def withTimeoutCalls : List Event → List (Context × Duration)
  | [] => []
  | Event.withTimeout p d :: es => (p, d) :: withTimeoutCalls es
  | _ :: es => withTimeoutCalls es

namespace context

/-- Go standard library `context.WithDeadline(parent, d)`: when the parent's
deadline is already earlier than `d` the result is a plain cancel context on
the parent, otherwise a timer context with deadline `d`.  `id` is the identity
of the new context's cancel function. -/
def WithDeadline (parent : Context) (d : Time) (id : Nat) : Context :=
  match parent.Deadline with
  | some cur => if cur < d then Context.cancelCtx id parent else Context.timerCtx id parent d
  | none => Context.timerCtx id parent d

/-- Go standard library `context.WithTimeout(parent, timeout)`, that is
`WithDeadline(parent, time.Now().Add(timeout))`.  Returns the derived context
together with the identity of its cancel function. -/
def WithTimeout {σ : Type} (parent : Context) (timeout : Duration) (w : World σ) :
    (Context × Nat) × World σ :=
  ((WithDeadline parent (w.now + timeout) w.nextID, w.nextID),
    { (w.emit (Event.withTimeout parent timeout)) with nextID := w.nextID + 1 })

/-- Running the cancel function with identity `id`. -/
def cancelFunc {σ : Type} (id : Nat) (w : World σ) : World σ :=
  { (w.emit (Event.cancel id)) with cancelled := id :: w.cancelled }

end context

/-- Go `config.ComponentID`: a component type and an optional name. -/
structure ComponentID where
  typeVal : String
  nameVal : String
deriving DecidableEq, Repr

namespace ComponentID

/-- Go `config.NewID(typeVal)`. -/
def NewID (typeVal : String) : ComponentID :=
  { typeVal := typeVal, nameVal := "" }

/-- Go `(id ComponentID) String()`. -/
def String (id : ComponentID) : String :=
  if id.nameVal = "" then id.typeVal else id.typeVal ++ "/" ++ id.nameVal

end ComponentID

/-- Go `configtelemetry.Level`; the spec names the levels disabled, normal and
detailed. -/
inductive Level where
  | LevelNone
  | LevelNormal
  | LevelDetailed
deriving DecidableEq, Repr

namespace exporterhelper

/-! ## common.go -/

/-- TimeoutSettings for timeout. -/
structure TimeoutSettings where
  Timeout : Duration
deriving DecidableEq, Repr

/-- DefaultTimeoutSettings returns the default settings for TimeoutSettings. -/
def DefaultTimeoutSettings : TimeoutSettings :=
  { Timeout := 5 * Second }

/-- What one run of a request's `export` does: the error it returns, the user
state it leaves, and how long it took. -/
structure ExportResult (σ : Type) where
  err : Option Error
  user : σ
  elapsed : Nat

/-- The `request` interface, as far as common.go calls it: `context` reads the
request's context, `setContext` replaces it, `export_` (Go `export`, a Lean
keyword) is one delivery attempt and `count` the number of items.
Implementations keep their fields in the user state `σ`. -/
structure request (σ : Type) where
  context : σ → Context
  setContext : Context → σ → σ
  export_ : Context → Time → σ → ExportResult σ
  count : σ → Int

namespace request

/-- The call `req.context()`. -/
def callContext {σ : Type} (req : request σ) (w : World σ) : Context × World σ :=
  (req.context w.user, w.emit Event.reqContext)

/-- The call `req.setContext(ctx)`. -/
def callSetContext {σ : Type} (req : request σ) (ctx : Context) (w : World σ) : World σ :=
  { (w.emit (Event.reqSetContext ctx)) with user := req.setContext ctx w.user }

/-- The call `req.export(ctx)`. -/
def callExport {σ : Type} (req : request σ) (ctx : Context) (w : World σ) :
    Option Error × World σ :=
  let r := req.export_ ctx w.now w.user
  (r.err, { (w.emit (Event.reqExport ctx)) with user := r.user, now := w.now + r.elapsed })

end request

/-- Go struct `baseRequest`: a base implementation for the request. -/
structure baseRequest where
  ctx : Context
deriving DecidableEq, Repr

namespace baseRequest

/-- Method `(req *baseRequest) context()`. -/
def context (req : baseRequest) : Context :=
  req.ctx

/-- Method `(req *baseRequest) setContext(ctx)`. -/
def setContext (_req : baseRequest) (ctx : Context) : baseRequest :=
  { ctx := ctx }

end baseRequest

/-- Go struct `timeoutSender`: a request sender that adds a timeout to every
request that passes this sender. -/
structure timeoutSender where
  cfg : TimeoutSettings
deriving DecidableEq, Repr

namespace timeoutSender

/-- Method `(ts *timeoutSender) send(req)`.  The deferred `cancelFunc()` runs
after `req.export(ctx)` has been evaluated and before `send` returns. -/
def send {σ : Type} (ts : timeoutSender) (req : request σ) (w : World σ) :
    Option Error × World σ :=
  let (ctx, w1) := req.callContext w
  if ts.cfg.Timeout > 0 then
    let (parent, w2) := req.callContext w1
    let ((ctx1, cancelID), w3) := context.WithTimeout parent ts.cfg.Timeout w2
    let (err, w4) := req.callExport ctx1 w3
    (err, context.cancelFunc cancelID w4)
  else
    req.callExport ctx w1

end timeoutSender

/-- Modelled from the spec: the declaration of QueueSettings is not in common.go;
the spec gives `{enabled, capacity, numConsumers}` and common.go sets the field
`Enabled`. -/
structure QueueSettings where
  Enabled : Bool
  capacity : Int
  numConsumers : Int
deriving DecidableEq, Repr

/-- Modelled from the spec: the declaration of RetrySettings is not in common.go;
the spec gives `{enabled, initialInterval, maxInterval, maxElapsedTime,
maxAttempts}` and common.go sets the field `Enabled`. -/
structure RetrySettings where
  Enabled : Bool
  initialInterval : Duration
  maxInterval : Duration
  maxElapsedTime : Duration
  maxAttempts : Int
deriving DecidableEq, Repr

/-- Modelled from the spec: the declaration of ResourceToTelemetrySettings is not
in common.go; by the comment on WithResourceToTelemetryConversion it switches
the conversion of resource attributes to metric labels. -/
structure ResourceToTelemetrySettings where
  Enabled : Bool
deriving DecidableEq, Repr

/-- Modelled from the spec: defaultResourceToTelemetrySettings is not in
common.go; "the default ResourceToTelemetrySettings is to disable" the
conversion. -/
def defaultResourceToTelemetrySettings : ResourceToTelemetrySettings :=
  { Enabled := false }

/-- Go interface `component.Host`. -/
structure Host where
  name : String
deriving DecidableEq, Repr

/-- Go `componenthelper.StartFunc`. -/
abbrev StartFunc (σ : Type) := Context → Host → σ → Option Error × σ

/-- Go `componenthelper.ShutdownFunc`. -/
abbrev ShutdownFunc (σ : Type) := Context → σ → Option Error × σ

/-- Go interface `component.Component`: anything with `Start` and `Shutdown`. -/
structure Component (σ : Type) where
  Start : StartFunc σ
  Shutdown : ShutdownFunc σ

namespace Component

/-- The call `c.Start(ctx, host)`. -/
def callStart {σ : Type} (c : Component σ) (ctx : Context) (host : Host) (w : World σ) :
    Option Error × World σ :=
  let r := c.Start ctx host w.user
  (r.1, { (w.emit Event.componentStart) with user := r.2 })

/-- The call `c.Shutdown(ctx)`. -/
def callShutdown {σ : Type} (c : Component σ) (ctx : Context) (w : World σ) :
    Option Error × World σ :=
  let r := c.Shutdown ctx w.user
  (r.1, { (w.emit Event.componentShutdown) with user := r.2 })

end Component

/-- Go `componenthelper.Option`, as built by the two constructors common.go
uses. -/
inductive ComponentOption (σ : Type) where
  | WithStart (start : StartFunc σ)
  | WithShutdown (shutdown : ShutdownFunc σ)

/-- Modelled from the spec: componenthelper.New is not in the source tree.  By
the comments on WithStart and WithShutdown in common.go, "the default start
function does nothing and always returns nil", likewise the default shutdown
function, and each option overrides one of the two. -/
def componenthelperNew {σ : Type} (options : List (ComponentOption σ)) : Component σ :=
  options.foldl
    (fun c o =>
      match o with
      | ComponentOption.WithStart f => { c with Start := f }
      | ComponentOption.WithShutdown f => { c with Shutdown := f })
    { Start := fun _ _ s => (none, s), Shutdown := fun _ s => (none, s) }

/-- Go `consumer.Capabilities`. -/
structure Capabilities where
  MutatesData : Bool
deriving DecidableEq, Repr

/-- Go `consumerhelper.Option`, as built by the constructor common.go uses. -/
inductive ConsumerOption where
  | WithCapabilities (capabilities : Capabilities)
deriving DecidableEq, Repr

/-- Go struct `baseSettings`: all the options that users can configure.  The
four embedded structs are fields named after their types. -/
structure baseSettings (σ : Type) where
  componentOptions : List (ComponentOption σ)
  consumerOptions : List ConsumerOption
  TimeoutSettings : exporterhelper.TimeoutSettings
  QueueSettings : exporterhelper.QueueSettings
  RetrySettings : exporterhelper.RetrySettings
  ResourceToTelemetrySettings : exporterhelper.ResourceToTelemetrySettings

/-- Go type `Option` of common.go: a change applied to a baseSettings. -/
abbrev ExporterOption (σ : Type) := baseSettings σ → baseSettings σ

/-- fromOptions returns the internal options starting from the default and
applying all configured options. -/
def fromOptions {σ : Type} (options : List (ExporterOption σ)) : baseSettings σ :=
  let opts : baseSettings σ :=
    { componentOptions := []
      consumerOptions := []
      TimeoutSettings := DefaultTimeoutSettings
      QueueSettings := { Enabled := false, capacity := 0, numConsumers := 0 }
      RetrySettings := { Enabled := false, initialInterval := 0, maxInterval := 0,
                         maxElapsedTime := 0, maxAttempts := 0 }
      ResourceToTelemetrySettings := defaultResourceToTelemetrySettings }
  options.foldl (fun o op => op o) opts

/-- WithStart overrides the default Start function for an exporter. -/
def WithStart {σ : Type} (start : StartFunc σ) : ExporterOption σ :=
  fun o => { o with componentOptions := o.componentOptions ++ [ComponentOption.WithStart start] }

/-- WithShutdown overrides the default Shutdown function for an exporter. -/
def WithShutdown {σ : Type} (shutdown : ShutdownFunc σ) : ExporterOption σ :=
  fun o =>
    { o with componentOptions := o.componentOptions ++ [ComponentOption.WithShutdown shutdown] }

/-- WithTimeout overrides the default TimeoutSettings for an exporter. -/
def WithTimeout {σ : Type} (timeoutSettings : TimeoutSettings) : ExporterOption σ :=
  fun o => { o with TimeoutSettings := timeoutSettings }

/-- WithRetry overrides the default RetrySettings for an exporter. -/
def WithRetry {σ : Type} (retrySettings : RetrySettings) : ExporterOption σ :=
  fun o => { o with RetrySettings := retrySettings }

/-- WithQueue overrides the default QueueSettings for an exporter. -/
def WithQueue {σ : Type} (queueSettings : QueueSettings) : ExporterOption σ :=
  fun o => { o with QueueSettings := queueSettings }

/-- WithCapabilities overrides the default Capabilities() function for a
Consumer. -/
def WithCapabilities {σ : Type} (capabilities : Capabilities) : ExporterOption σ :=
  fun o =>
    { o with consumerOptions := o.consumerOptions ++ [ConsumerOption.WithCapabilities capabilities] }

/-- WithResourceToTelemetryConversion overrides the default
ResourceToTelemetrySettings for an exporter. -/
def WithResourceToTelemetryConversion {σ : Type}
    (resourceToTelemetrySettings : ResourceToTelemetrySettings) : ExporterOption σ :=
  fun o => { o with ResourceToTelemetrySettings := resourceToTelemetrySettings }

/-- The `requestSender` implementations reachable from common.go, as a tree of
stages: each constructor holds the configuration of the stage and the sender
it hands requests to.  `timeout` is the struct `timeoutSender`, which has no
field for a next sender; `retry` and `queuedRetry` are the stages built by
newQueuedRetrySender. -/
inductive requestSender where
  | timeout (ts : timeoutSender)
  | retry (cfg : RetrySettings) (nextSender : requestSender)
  | queuedRetry (fullName : String) (cfg : QueueSettings) (consumerSender : requestSender)
deriving DecidableEq, Repr

/-- Go struct `queuedRetrySender`, with the field common.go reads and writes
(`consumerSender`) and the configuration it was built from. -/
structure queuedRetrySender where
  fullName : String
  cfg : QueueSettings
  consumerSender : requestSender
deriving DecidableEq, Repr

namespace queuedRetrySender

/-- A `*queuedRetrySender` used as a `requestSender`. -/
def asSender (qrs : queuedRetrySender) : requestSender :=
  requestSender.queuedRetry qrs.fullName qrs.cfg qrs.consumerSender

end queuedRetrySender

/-- Modelled from the spec: newQueuedRetrySender is not in common.go.  Its
fourth argument is the next sender; by the comment on wrapConsumerSender the
consumer sender is "the sender that uses retries and timeout", and by the
spec's retry loop each attempt is `inner.send(req)`: the consumer sender is the
retry stage around the next sender.  The logger argument is left out. -/
def newQueuedRetrySender (fullName : String) (qCfg : QueueSettings) (rCfg : RetrySettings)
    (nextSender : requestSender) : queuedRetrySender :=
  { fullName := fullName, cfg := qCfg, consumerSender := requestSender.retry rCfg nextSender }

/-- The bodies of `queuedRetrySender.start` and `queuedRetrySender.shutdown`
are outside common.go; the lifecycle of the base exporter is embedded for
arbitrary bodies. -/
structure queuedRetryLifecycle (σ : Type) where
  start : queuedRetrySender → σ → Option Error × σ
  shutdown : queuedRetrySender → σ → σ

namespace queuedRetrySender

/-- The call `qrs.start()`. -/
def callStart {σ : Type} (qrs : queuedRetrySender) (m : queuedRetryLifecycle σ) (w : World σ) :
    Option Error × World σ :=
  let r := m.start qrs w.user
  (r.1, { (w.emit Event.qrSenderStart) with user := r.2 })

/-- The call `qrs.shutdown()`. -/
def callShutdown {σ : Type} (qrs : queuedRetrySender) (m : queuedRetryLifecycle σ)
    (w : World σ) : World σ :=
  { (w.emit Event.qrSenderShutdown) with user := m.shutdown qrs w.user }

end queuedRetrySender

/-- Go `config.Exporter`, as far as common.go reads it: `cfg.ID()`. -/
structure ExporterConfig where
  ID : ComponentID
deriving DecidableEq, Repr

/-- Go `component.ExporterCreateSettings`, as far as common.go reads it. -/
structure ExporterCreateSettings where
  Logger : String
deriving DecidableEq, Repr

/-- Go `obsreport.ExporterSettings`, the argument of newObsExporter. -/
structure ExporterSettings where
  Level : Level
  ExporterID : ComponentID
  ExporterCreateSettings : ExporterCreateSettings
deriving DecidableEq, Repr

/-- The value stored in the interface field `baseExporter.sender`: either the
very pointer held in `qrSender` (what newBaseExporter stores), or some other
sender. -/
inductive senderRef where
  | qrSender
  | other (s : requestSender)
deriving DecidableEq, Repr

/-- Go struct `baseExporter`: common fields between different exporter types. -/
structure baseExporter (σ : Type) where
  Component : Component σ
  obsrep : ExporterSettings
  sender : senderRef
  qrSender : queuedRetrySender

/-- newBaseExporter of common.go.  `level` is the value of
`configtelemetry.GetMetricsLevelFlagValue()`. -/
def newBaseExporter {σ : Type} (level : Level) (cfg : ExporterConfig)
    (set : ExporterCreateSettings) (bs : baseSettings σ) : baseExporter σ :=
  { Component := componenthelperNew bs.componentOptions
    obsrep := { Level := level, ExporterID := cfg.ID, ExporterCreateSettings := set }
    qrSender := newQueuedRetrySender cfg.ID.String bs.QueueSettings bs.RetrySettings
      (requestSender.timeout { cfg := bs.TimeoutSettings })
    sender := senderRef.qrSender }

namespace baseExporter

/-- The sender a request handed to `be.sender.send` reaches first. -/
def entrySender {σ : Type} (be : baseExporter σ) : requestSender :=
  match be.sender with
  | senderRef.qrSender => be.qrSender.asSender
  | senderRef.other s => s

/-- wrapConsumerSender wraps the consumer sender (the sender that uses retries
and timeout) with the given wrapper. -/
def wrapConsumerSender {σ : Type} (be : baseExporter σ) (f : requestSender → requestSender) :
    baseExporter σ :=
  { be with qrSender := { be.qrSender with consumerSender := f be.qrSender.consumerSender } }

/-- Start all senders and exporter; invoked during service start. -/
def Start {σ : Type} (m : queuedRetryLifecycle σ) (be : baseExporter σ) (ctx : Context)
    (host : Host) (w : World σ) : Option Error × World σ :=
  match be.Component.callStart ctx host w with
  | (some err, w1) => (some err, w1)
  | (none, w1) => be.qrSender.callStart m w1

/-- Shutdown all senders and exporter; invoked during service shutdown. -/
def Shutdown {σ : Type} (m : queuedRetryLifecycle σ) (be : baseExporter σ) (ctx : Context)
    (w : World σ) : Option Error × World σ :=
  let w1 := be.qrSender.callShutdown m w
  be.Component.callShutdown ctx w1

end baseExporter

namespace requestSender

/-- The sender a stage hands requests to, if it has one. -/
def inner : requestSender → Option requestSender
  | timeout _ => none
  | retry _ next => some next
  | queuedRetry _ _ consumer => some consumer

/-- Whether a stage is the timeout sender. -/
def isTimeout : requestSender → Bool
  | timeout _ => true
  | _ => false

/-- Whether a stage is the queued-retry sender. -/
def isQueuedRetry : requestSender → Bool
  | queuedRetry _ _ _ => true
  | _ => false

/-- The stages of a chain from the outermost to the innermost. -/
def stages : requestSender → List requestSender
  | timeout ts => [timeout ts]
  | retry cfg next => retry cfg next :: stages next
  | queuedRetry n cfg consumer => queuedRetry n cfg consumer :: stages consumer

end requestSender

end exporterhelper

/-! ## obsreport: the receiver side -/

namespace obsreport

/-- Go `config.DataType`. -/
inductive DataType where
  | TracesDataType
  | MetricsDataType
  | LogsDataType
deriving DecidableEq, Repr

/-- The attribute and measure keys of package obsmetrics that
obsreport_test.go reads. -/
inductive Key where
  | TransportKey
  | FormatKey
  | AcceptedSpansKey
  | RefusedSpansKey
  | AcceptedMetricPointsKey
  | RefusedMetricPointsKey
  | AcceptedLogRecordsKey
  | RefusedLogRecordsKey
  | ScrapedMetricPointsKey
  | ErroredMetricPointsKey
  | SentSpansKey
  | FailedToSendSpansKey
  | SentMetricPointsKey
  | FailedToSendMetricPointsKey
  | SentLogRecordsKey
  | FailedToSendLogRecordsKey
deriving DecidableEq, Repr

/-- Go `codes.Code` of a span status. -/
inductive StatusCode where
  | Unset
  | Error
  | Ok
deriving DecidableEq, Repr

/-- A span as the span recorder of the tests sees it. -/
structure Span where
  name : String
  linked : Bool
  strAttributes : List (Key × String)
  intAttributes : List (Key × Int)
  statusCode : StatusCode
  statusMessage : String
deriving DecidableEq, Repr

namespace Span

/-- The integer attribute stored under a key, `span.Attributes()[key]`: the
value written last. -/
def intAttribute (sp : Span) (k : Key) : Option Int :=
  (sp.intAttributes.reverse.find? (fun kv => kv.1 = k)).map (fun kv => kv.2)

end Span

/-- The labels of a recorded measurement: the measure, the component it is
about and the transport. -/
structure Tag where
  measure : Key
  component : String
  transport : String
deriving DecidableEq, Repr

/-- What the reporter writes to: the global metric level, the counters and
the completed spans (oldest first). -/
structure Telemetry where
  level : Level
  counters : Tag → Int
  completed : List Span

namespace Telemetry

/-- Add `v` to the counter with tag `tag`. -/
def record (t : Telemetry) (tag : Tag) (v : Int) : Telemetry :=
  { t with counters := fun k => if k = tag then t.counters k + v else t.counters k }

end Telemetry

/-- The message of an error, `err.Error()`; a partial scrape error reports the
message of the error it wraps. -/
def errorMessage : Error → String
  | Error.new msg => msg
  | Error.PartialScrapeError err _ => errorMessage err

/-- Modelled from the spec: the reporter's End operations are not in the source
tree.  The counts an operation on `itemCount` items records, as (accepted,
refused): on a nil error the whole count is accepted; on a partial failure
carrying `failed`, `itemCount - failed` is accepted and `failed` refused; on
any other error everything is refused. -/
def opCounts (itemCount : Int) : Option Error → Int × Int
  | none => (itemCount, 0)
  | some (Error.PartialScrapeError _ failed) => (itemCount - failed, failed)
  | some (Error.new _) => (0, itemCount)

/-- Go `obsreport.ReceiverSettings`, as written in obsreport_test.go. -/
structure ReceiverSettings where
  ReceiverID : ComponentID
  Transport : String
  LongLivedCtx : Bool
deriving DecidableEq, Repr

/-- Go `obsreport.Receiver`, built by `NewReceiver(settings)`. -/
structure Receiver where
  settings : ReceiverSettings
deriving DecidableEq, Repr

/-- Go `obsreport.NewReceiver`. -/
def NewReceiver (settings : ReceiverSettings) : Receiver :=
  { settings := settings }

/-- The operation label of a receive operation, as the tests expect it. -/
def receiveLabel : DataType → String
  | DataType.TracesDataType => "TraceDataReceived"
  | DataType.MetricsDataType => "MetricsReceived"
  | DataType.LogsDataType => "LogsReceived"

/-- The key under which a receive operation reports accepted items. -/
def acceptedKey : DataType → Key
  | DataType.TracesDataType => Key.AcceptedSpansKey
  | DataType.MetricsDataType => Key.AcceptedMetricPointsKey
  | DataType.LogsDataType => Key.AcceptedLogRecordsKey

/-- The key under which a receive operation reports refused items. -/
def refusedKey : DataType → Key
  | DataType.TracesDataType => Key.RefusedSpansKey
  | DataType.MetricsDataType => Key.RefusedMetricPointsKey
  | DataType.LogsDataType => Key.RefusedLogRecordsKey

namespace Receiver

/-- The tag of one of this receiver's counters. -/
def tag (rec : Receiver) (k : Key) : Tag :=
  { measure := k, component := rec.settings.ReceiverID.String,
    transport := rec.settings.Transport }

/-- Modelled from the spec: the receiver's Start operations are not in the
source tree.  `Start<X>Op` opens a span named
"receiver/" + receiverID + "/" + label carrying the transport; under a
long-lived context the span is a link rather than a child.  The result stands
for the returned context, which carries the span. -/
def startOp (rec : Receiver) (dataType : DataType) : Span :=
  { name := "receiver/" ++ rec.settings.ReceiverID.String ++ "/" ++ receiveLabel dataType
    linked := rec.settings.LongLivedCtx
    strAttributes := [(Key.TransportKey, rec.settings.Transport)]
    intAttributes := []
    statusCode := StatusCode.Unset
    statusMessage := "" }

/-- Modelled from the spec: the receiver's End operations are not in the source
tree.  The span as `End<X>Op` completes it: the counts of `opCounts` are
written as attributes, and the status is set to error with the error's message
when `err` is not nil. -/
def endSpan (span : Span) (format : String) (numReceivedItems : Int) (err : Option Error)
    (dataType : DataType) : Span :=
  { span with
    strAttributes := span.strAttributes ++ [(Key.FormatKey, format)]
    intAttributes := span.intAttributes ++
      [(acceptedKey dataType, (opCounts numReceivedItems err).1),
       (refusedKey dataType, (opCounts numReceivedItems err).2)]
    statusCode := match err with
      | none => span.statusCode
      | some _ => StatusCode.Error
    statusMessage := match err with
      | none => span.statusMessage
      | some e => errorMessage e }

/-- Modelled from the spec: the receiver's End operations are not in the source
tree.  `End<X>Op(ctx, format, itemCount, err)` records the counts of `opCounts`
into the accepted and refused counters unless the metric level disables
counters, and ends the span completed by `endSpan`. -/
def endOp (rec : Receiver) (span : Span) (format : String) (numReceivedItems : Int)
    (err : Option Error) (dataType : DataType) (t : Telemetry) : Telemetry :=
  let t1 :=
    if t.level = Level.LevelNone then t
    else (t.record (rec.tag (acceptedKey dataType)) (opCounts numReceivedItems err).1).record
      (rec.tag (refusedKey dataType)) (opCounts numReceivedItems err).2
  { t1 with completed := t1.completed ++ [endSpan span format numReceivedItems err dataType] }

/-- StartTracesOp of the receiver. -/
def StartTracesOp (rec : Receiver) : Span :=
  rec.startOp DataType.TracesDataType

/-- StartLogsOp of the receiver. -/
def StartLogsOp (rec : Receiver) : Span :=
  rec.startOp DataType.LogsDataType

/-- StartMetricsOp of the receiver. -/
def StartMetricsOp (rec : Receiver) : Span :=
  rec.startOp DataType.MetricsDataType

/-- EndTracesOp of the receiver. -/
def EndTracesOp (rec : Receiver) (span : Span) (format : String) (numReceivedSpans : Int)
    (err : Option Error) (t : Telemetry) : Telemetry :=
  rec.endOp span format numReceivedSpans err DataType.TracesDataType t

/-- EndLogsOp of the receiver. -/
def EndLogsOp (rec : Receiver) (span : Span) (format : String) (numReceivedLogRecords : Int)
    (err : Option Error) (t : Telemetry) : Telemetry :=
  rec.endOp span format numReceivedLogRecords err DataType.LogsDataType t

/-- EndMetricsOp of the receiver. -/
def EndMetricsOp (rec : Receiver) (span : Span) (format : String) (numReceivedPoints : Int)
    (err : Option Error) (t : Telemetry) : Telemetry :=
  rec.endOp span format numReceivedPoints err DataType.MetricsDataType t

/-- The End operation of a signal. -/
def EndOp (rec : Receiver) (dataType : DataType) (span : Span) (format : String)
    (numReceivedItems : Int) (err : Option Error) (t : Telemetry) : Telemetry :=
  match dataType with
  | DataType.TracesDataType => rec.EndTracesOp span format numReceivedItems err t
  | DataType.MetricsDataType => rec.EndMetricsOp span format numReceivedItems err t
  | DataType.LogsDataType => rec.EndLogsOp span format numReceivedItems err t

end Receiver

/-- Whether an error is classified as a partial failure. -/
def isPartialFailure : Error → Bool
  | Error.PartialScrapeError _ _ => true
  | Error.new _ => false

end obsreport

/-! ## common.go: option calls -/

namespace exporterhelper

/-- The option constructors of common.go as they are written in a call of
fromOptions, before they are evaluated to an `Option`. -/
inductive optionCall (σ : Type) where
  | WithStart (start : StartFunc σ)
  | WithShutdown (shutdown : ShutdownFunc σ)
  | WithTimeout (timeoutSettings : TimeoutSettings)
  | WithRetry (retrySettings : RetrySettings)
  | WithQueue (queueSettings : QueueSettings)
  | WithCapabilities (capabilities : Capabilities)
  | WithResourceToTelemetryConversion (resourceToTelemetrySettings : ResourceToTelemetrySettings)

namespace optionCall

/-- The `Option` a constructor call evaluates to. -/
def eval {σ : Type} : optionCall σ → ExporterOption σ
  | WithStart start => exporterhelper.WithStart start
  | WithShutdown shutdown => exporterhelper.WithShutdown shutdown
  | WithTimeout ts => exporterhelper.WithTimeout ts
  | WithRetry rs => exporterhelper.WithRetry rs
  | WithQueue qs => exporterhelper.WithQueue qs
  | WithCapabilities c => exporterhelper.WithCapabilities c
  | WithResourceToTelemetryConversion r => exporterhelper.WithResourceToTelemetryConversion r

end optionCall

/-- The argument of the last `WithTimeout` in a list of option calls, if there
is one. -/
def lastTimeout {σ : Type} : List (optionCall σ) → Option TimeoutSettings
  | [] => none
  | c :: cs =>
    match lastTimeout cs with
    | some ts => some ts
    | none =>
      match c with
      | optionCall.WithTimeout ts => some ts
      | _ => none

/-- The argument of the last `WithRetry` in a list of option calls, if there is
one. -/
def lastRetry {σ : Type} : List (optionCall σ) → Option RetrySettings
  | [] => none
  | c :: cs =>
    match lastRetry cs with
    | some rs => some rs
    | none =>
      match c with
      | optionCall.WithRetry rs => some rs
      | _ => none

/-- The argument of the last `WithQueue` in a list of option calls, if there is
one. -/
def lastQueue {σ : Type} : List (optionCall σ) → Option QueueSettings
  | [] => none
  | c :: cs =>
    match lastQueue cs with
    | some qs => some qs
    | none =>
      match c with
      | optionCall.WithQueue qs => some qs
      | _ => none

end exporterhelper

/-! ## obsreport: exporter, scraper and processor metric names -/

namespace obsreport

/-- Go `obsreport.Exporter`, built by `NewExporter(settings)`. -/
structure Exporter where
  settings : exporterhelper.ExporterSettings
deriving DecidableEq, Repr

/-- Go `obsreport.NewExporter`. -/
def NewExporter (cfg : exporterhelper.ExporterSettings) : Exporter :=
  { settings := cfg }

/-- The operation label of an export operation, as the tests expect it. -/
def exportLabel : DataType → String
  | DataType.TracesDataType => "traces"
  | DataType.MetricsDataType => "metrics"
  | DataType.LogsDataType => "logs"

/-- The key under which an export operation reports sent items. -/
def sentKey : DataType → Key
  | DataType.TracesDataType => Key.SentSpansKey
  | DataType.MetricsDataType => Key.SentMetricPointsKey
  | DataType.LogsDataType => Key.SentLogRecordsKey

/-- The key under which an export operation reports items it failed to send. -/
def failedToSendKey : DataType → Key
  | DataType.TracesDataType => Key.FailedToSendSpansKey
  | DataType.MetricsDataType => Key.FailedToSendMetricPointsKey
  | DataType.LogsDataType => Key.FailedToSendLogRecordsKey

namespace Exporter

/-- The tag of one of this exporter's counters. -/
def tag (exp : Exporter) (k : Key) : Tag :=
  { measure := k, component := exp.settings.ExporterID.String, transport := "" }

/-- Modelled from the spec: the exporter's Start operations are not in the
source tree.  `Start<X>Op` opens a span named
"exporter/" + exporterID + "/" + label.  The result stands for the returned
context, which carries the span. -/
def startOp (exp : Exporter) (dataType : DataType) : Span :=
  { name := "exporter/" ++ exp.settings.ExporterID.String ++ "/" ++ exportLabel dataType
    linked := false
    strAttributes := []
    intAttributes := []
    statusCode := StatusCode.Unset
    statusMessage := "" }

/-- Modelled from the spec: the exporter's End operations are not in the source
tree.  The span as `End<X>Op` completes it: the counts of `opCounts` are
written as the sent and failed-to-send attributes, and the status is set to
error with the error's message when `err` is not nil. -/
def endSpan (span : Span) (numItems : Int) (err : Option Error) (dataType : DataType) : Span :=
  { span with
    intAttributes := span.intAttributes ++
      [(sentKey dataType, (opCounts numItems err).1),
       (failedToSendKey dataType, (opCounts numItems err).2)]
    statusCode := match err with
      | none => span.statusCode
      | some _ => StatusCode.Error
    statusMessage := match err with
      | none => span.statusMessage
      | some e => errorMessage e }

/-- Modelled from the spec: the exporter's End operations are not in the source
tree.  `End<X>Op(ctx, itemCount, err)` records the counts of `opCounts` into the
sent and failed-to-send counters unless the metric level disables counters, and
ends the span completed by `endSpan`.  The metric level gates counters
globally; the exporter also carries the level it was created with (in
common.go the value of the global flag), and counters are recorded only when
neither disables them. -/
def endOp (exp : Exporter) (span : Span) (numItems : Int) (err : Option Error)
    (dataType : DataType) (t : Telemetry) : Telemetry :=
  let t1 :=
    if t.level = Level.LevelNone ∨ exp.settings.Level = Level.LevelNone then t
    else (t.record (exp.tag (sentKey dataType)) (opCounts numItems err).1).record
      (exp.tag (failedToSendKey dataType)) (opCounts numItems err).2
  { t1 with completed := t1.completed ++ [endSpan span numItems err dataType] }

/-- StartTracesOp of the exporter. -/
def StartTracesOp (exp : Exporter) : Span :=
  exp.startOp DataType.TracesDataType

/-- StartMetricsOp of the exporter. -/
def StartMetricsOp (exp : Exporter) : Span :=
  exp.startOp DataType.MetricsDataType

/-- StartLogsOp of the exporter. -/
def StartLogsOp (exp : Exporter) : Span :=
  exp.startOp DataType.LogsDataType

/-- EndTracesOp of the exporter. -/
def EndTracesOp (exp : Exporter) (span : Span) (numSpans : Int) (err : Option Error)
    (t : Telemetry) : Telemetry :=
  exp.endOp span numSpans err DataType.TracesDataType t

/-- EndMetricsOp of the exporter. -/
def EndMetricsOp (exp : Exporter) (span : Span) (numMetricPoints : Int) (err : Option Error)
    (t : Telemetry) : Telemetry :=
  exp.endOp span numMetricPoints err DataType.MetricsDataType t

/-- EndLogsOp of the exporter. -/
def EndLogsOp (exp : Exporter) (span : Span) (numLogRecords : Int) (err : Option Error)
    (t : Telemetry) : Telemetry :=
  exp.endOp span numLogRecords err DataType.LogsDataType t

/-- The End operation of a signal. -/
def EndOp (exp : Exporter) (dataType : DataType) (span : Span) (numItems : Int)
    (err : Option Error) (t : Telemetry) : Telemetry :=
  match dataType with
  | DataType.TracesDataType => exp.EndTracesOp span numItems err t
  | DataType.MetricsDataType => exp.EndMetricsOp span numItems err t
  | DataType.LogsDataType => exp.EndLogsOp span numItems err t

/-- The Start operation of a signal. -/
def StartOp (exp : Exporter) (dataType : DataType) : Span :=
  match dataType with
  | DataType.TracesDataType => exp.StartTracesOp
  | DataType.MetricsDataType => exp.StartMetricsOp
  | DataType.LogsDataType => exp.StartLogsOp

end Exporter

/-- Go `obsreport.ScraperSettings`, as written in obsreport_test.go. -/
structure ScraperSettings where
  ReceiverID : ComponentID
  Scraper : ComponentID
deriving DecidableEq, Repr

/-- Go `obsreport.Scraper`, built by `NewScraper(settings)`. -/
structure Scraper where
  settings : ScraperSettings
deriving DecidableEq, Repr

/-- Go `obsreport.NewScraper`. -/
def NewScraper (cfg : ScraperSettings) : Scraper :=
  { settings := cfg }

/-- Modelled from the spec: the scraper's EndMetricsOp is not in the source
tree.  The counts a scrape of `numScrapedMetrics` points records, as (scraped,
errored): on a nil error everything is scraped; on any error that is not a
partial failure everything is errored.  For a partial scrape error
TestScrapeMetricsDataOp asserts that the scraped attribute is the full item
count and the errored attribute is the error's `Failed`; the model follows the
test there, not the spec's `itemCount - failed`. -/
def scrapeCounts (numScrapedMetrics : Int) : Option Error → Int × Int
  | none => (numScrapedMetrics, 0)
  | some (Error.PartialScrapeError _ failed) => (numScrapedMetrics, failed)
  | some (Error.new _) => (0, numScrapedMetrics)

namespace Scraper

/-- The tag of one of this scraper's counters: receiver and scraper. -/
def tag (scrp : Scraper) (k : Key) : Tag :=
  { measure := k
    component := scrp.settings.ReceiverID.String ++ "/" ++ scrp.settings.Scraper.String
    transport := "" }

/-- Modelled from the spec: the scraper's StartMetricsOp is not in the source
tree.  It opens a span named
"scraper/" + receiverID + "/" + scraperID + "/" + "MetricsScraped". -/
def StartMetricsOp (scrp : Scraper) : Span :=
  { name := "scraper/" ++ scrp.settings.ReceiverID.String ++ "/" ++
      scrp.settings.Scraper.String ++ "/" ++ "MetricsScraped"
    linked := false
    strAttributes := []
    intAttributes := []
    statusCode := StatusCode.Unset
    statusMessage := "" }

/-- Modelled from the spec: the scraper's EndMetricsOp is not in the source
tree.  The span as EndMetricsOp completes it: the counts of `scrapeCounts` as
attributes, and error status with the error's message when `err` is not nil. -/
def endSpan (span : Span) (numScrapedMetrics : Int) (err : Option Error) : Span :=
  { span with
    intAttributes := span.intAttributes ++
      [(Key.ScrapedMetricPointsKey, (scrapeCounts numScrapedMetrics err).1),
       (Key.ErroredMetricPointsKey, (scrapeCounts numScrapedMetrics err).2)]
    statusCode := match err with
      | none => span.statusCode
      | some _ => StatusCode.Error
    statusMessage := match err with
      | none => span.statusMessage
      | some e => errorMessage e }

/-- Modelled from the spec: the scraper's EndMetricsOp is not in the source
tree.  `EndMetricsOp(ctx, numScrapedMetrics, err)` records the counts of
`scrapeCounts` into the scraped and errored counters unless the metric level
disables counters, and ends the span completed by `endSpan`. -/
def EndMetricsOp (scrp : Scraper) (span : Span) (numScrapedMetrics : Int) (err : Option Error)
    (t : Telemetry) : Telemetry :=
  let t1 :=
    if t.level = Level.LevelNone then t
    else (t.record (scrp.tag Key.ScrapedMetricPointsKey)
        (scrapeCounts numScrapedMetrics err).1).record
      (scrp.tag Key.ErroredMetricPointsKey) (scrapeCounts numScrapedMetrics err).2
  { t1 with completed := t1.completed ++ [endSpan span numScrapedMetrics err] }

end Scraper

/-- Go `obsmetrics.ProcessorPrefix`, the component kind of processor metrics. -/
def ProcessorPrefix : String := "processor"

/-- Go `obsmetrics.NameSep`, the separator of name parts. -/
def NameSep : String := "/"

/-- Modelled from the spec: BuildProcessorCustomMetricName is not in the source
tree.  Counter names are "derived from component-kind + identifier +
measurement name", as in "processor/<type>/<measure>": kind, type and measure
joined by the separator. -/
def BuildProcessorCustomMetricName (configType : String) (metric : String) : String :=
  String.intercalate NameSep [ProcessorPrefix, configType, metric]

end obsreport

/-! ## common.go: Shutdown when the calls it makes may panic -/

/-- What a Go call that may panic does: it returns a value, or it panics and
leaves a state behind. -/
inductive Outcome (α β : Type) where
  | returned (value : α)
  | panicked (state : β)

namespace exporterhelper

/-- The bodies of the two calls `baseExporter.Shutdown` makes, neither of which
is in common.go: `queuedRetrySender.shutdown` and the function behind
`Component.Shutdown`.  Either may return or panic. -/
structure shutdownBodies (σ : Type) where
  qrSenderShutdown : queuedRetrySender → σ → Outcome σ σ
  componentShutdown : Context → σ → Outcome (Option Error × σ) σ

namespace shutdownBodies

/-- Bodies that always return: those of a lifecycle and a component. -/
def returning {σ : Type} (m : queuedRetryLifecycle σ) (c : Component σ) : shutdownBodies σ :=
  { qrSenderShutdown := fun qrs s => Outcome.returned (m.shutdown qrs s)
    componentShutdown := fun ctx s => Outcome.returned (c.Shutdown ctx s) }

end shutdownBodies

namespace baseExporter

/-- Shutdown of common.go when its calls may panic.  Shutdown has no recover:
a panic of `be.qrSender.shutdown()` ends the call before the component is
reached, a panic of `be.Component.Shutdown(ctx)` ends it after both calls, and
otherwise the component's result is returned. -/
def ShutdownOutcome {σ : Type} (b : shutdownBodies σ) (be : baseExporter σ) (ctx : Context)
    (w : World σ) : Outcome (Option Error × World σ) (World σ) :=
  match b.qrSenderShutdown be.qrSender w.user with
  | Outcome.panicked s => Outcome.panicked { (w.emit Event.qrSenderShutdown) with user := s }
  | Outcome.returned s =>
    match b.componentShutdown ctx s with
    | Outcome.panicked s1 =>
      Outcome.panicked
        { ((w.emit Event.qrSenderShutdown).emit Event.componentShutdown) with user := s1 }
    | Outcome.returned r =>
      Outcome.returned
        (r.1, { ((w.emit Event.qrSenderShutdown).emit Event.componentShutdown) with user := r.2 })

end baseExporter

end exporterhelper

/-! ## Fixtures -/

namespace exporterhelper

/-- User state of a request that embeds `baseRequest` and counts the delivery
attempts made against its backend. -/
structure fakeState where
  base : baseRequest
  attempts : Nat
deriving DecidableEq, Repr

/-- A request embedding `baseRequest` whose export takes `elapsed` nanoseconds
and returns `err`. -/
def fakeRequest (err : Option Error) (elapsed : Nat) : request fakeState :=
  { context := fun s => s.base.context
    setContext := fun c s => { s with base := s.base.setContext c }
    export_ := fun _ _ s =>
      { err := err, user := { s with attempts := s.attempts + 1 }, elapsed := elapsed }
    count := fun _ => 1 }

/-- The error used by the tests. -/
def errFake : Error := Error.new "errFake"

/-- A caller context without deadline. -/
def ctxBackground : Context := Context.background "caller" none

/-- A world at instant 100 in which nothing has happened yet. -/
def fakeWorld (ctx : Context) : World fakeState :=
  { user := { base := { ctx := ctx }, attempts := 0 }
    now := 100, nextID := 0, cancelled := [], log := [] }

end exporterhelper

namespace exporterhelper

/-- Lifecycle bodies for the queued-retry sender over a counter state: start
succeeds and adds 10, shutdown adds 100. -/
def fakeLifecycle : queuedRetryLifecycle Nat :=
  { start := fun _ s => (none, s + 10), shutdown := fun _ s => s + 100 }

/-- A start function that fails with `errFake`. -/
def failingStart : StartFunc Nat :=
  fun _ _ s => (some errFake, s + 1)

/-- A shutdown function that fails with `errFake` on every call. -/
def failingShutdown : ShutdownFunc Nat :=
  fun _ s => (some errFake, s + 1)

/-- The exporter configuration used by the tests. -/
def fakeCfg : ExporterConfig :=
  { ID := ComponentID.NewID "fakeExporter" }

/-- Create settings with a no-op logger. -/
def fakeSet : ExporterCreateSettings :=
  { Logger := "nop" }

/-- A host. -/
def fakeHost : Host :=
  { name := "nop" }

/-- A world over a counter state in which nothing has happened yet. -/
def counterWorld : World Nat :=
  { user := 0, now := 100, nextID := 0, cancelled := [], log := [] }

end exporterhelper

namespace obsreport

/-- The receiver of obsreport_test.go. -/
def fakeReceiver : Receiver :=
  NewReceiver { ReceiverID := ComponentID.NewID "fakeReicever", Transport := "fakeTransport",
                LongLivedCtx := false }

/-- Telemetry with all counters at zero and no span recorded. -/
def emptyTelemetry (level : Level) : Telemetry :=
  { level := level, counters := fun _ => 0, completed := [] }

end obsreport

namespace obsreport

/-- The exporter of obsreport_test.go, at a given metric level. -/
def fakeExporter (level : Level) : Exporter :=
  NewExporter { Level := level, ExporterID := ComponentID.NewID "fakeExporter",
                ExporterCreateSettings := exporterhelper.fakeSet }

/-- The scraper of obsreport_test.go. -/
def fakeScraper : Scraper :=
  NewScraper { ReceiverID := ComponentID.NewID "fakeReicever",
               Scraper := ComponentID.NewID "fakeScraper" }

/-- The partial scrape error of obsreport_test.go. -/
def fakePartialErr : Error :=
  Error.PartialScrapeError exporterhelper.errFake 1

end obsreport

namespace exporterhelper

/-- An exporter built with `WithShutdown` of a function that fails. -/
def failingExporter : baseExporter Nat :=
  newBaseExporter Level.LevelNormal fakeCfg fakeSet (fromOptions [WithShutdown failingShutdown])

/-- An exporter built without options. -/
def defaultExporter : baseExporter Nat :=
  newBaseExporter Level.LevelNormal fakeCfg fakeSet (fromOptions [])

/-- A body for the queued-retry sender's shutdown that cannot be repeated: the
first call returns and adds 100, a call on an already shut down sender
panics. -/
def shutdownOnce : queuedRetrySender → Nat → Outcome Nat Nat :=
  fun _ s => if s < 100 then Outcome.returned (s + 100) else Outcome.panicked s

end exporterhelper

/-! # Theorems -/

theorem exportCalls_append (l1 l2 : List Event) :
    exportCalls (l1 ++ l2) = exportCalls l1 ++ exportCalls l2 := by
  induction l1 with
  | nil => rfl
  | cons e es ih => cases e <;> simp [exportCalls, ih]

theorem setContextCalls_append (l1 l2 : List Event) :
    setContextCalls (l1 ++ l2) = setContextCalls l1 ++ setContextCalls l2 := by
  induction l1 with
  | nil => rfl
  | cons e es ih => cases e <;> simp [setContextCalls, ih]

theorem withTimeoutCalls_append (l1 l2 : List Event) :
    withTimeoutCalls (l1 ++ l2) = withTimeoutCalls l1 ++ withTimeoutCalls l2 := by
  induction l1 with
  | nil => rfl
  | cons e es ih => cases e <;> simp [withTimeoutCalls, ih]

namespace context

theorem WithDeadline_parent (parent : Context) (d : Time) (id : Nat) :
    (WithDeadline parent d id).parent = some parent := by
  unfold WithDeadline
  cases h : parent.Deadline with
  | none => simp [Context.parent]
  | some cur => by_cases hc : cur < d <;> simp [hc, Context.parent]

theorem WithDeadline_cancelID (parent : Context) (d : Time) (id : Nat) :
    (WithDeadline parent d id).cancelID = some id := by
  unfold WithDeadline
  cases h : parent.Deadline with
  | none => simp [Context.cancelID]
  | some cur => by_cases hc : cur < d <;> simp [hc, Context.cancelID]

theorem WithDeadline_Deadline (parent : Context) (d : Time) (id : Nat) :
    (WithDeadline parent d id).Deadline = some (earlier parent.Deadline d) := by
  unfold WithDeadline
  cases h : parent.Deadline with
  | none => simp [Context.Deadline, earlier]
  | some cur => by_cases hc : cur < d <;> simp [hc, Context.Deadline, earlier, h]

end context

namespace exporterhelper

namespace timeoutSender

/-- Unfolding of `send` when no timeout is configured. -/
theorem send_of_not_pos {σ : Type} (ts : timeoutSender) (req : request σ) (w : World σ)
    (h : ¬ ts.cfg.Timeout > 0) :
    ts.send req w =
      ((req.export_ (req.context w.user) w.now w.user).err,
        { user := (req.export_ (req.context w.user) w.now w.user).user
          now := w.now + (req.export_ (req.context w.user) w.now w.user).elapsed
          nextID := w.nextID
          cancelled := w.cancelled
          log := w.log ++ [Event.reqContext, Event.reqExport (req.context w.user)] }) := by
  simp [send, h, request.callContext, request.callExport, World.emit]

/-- Unfolding of `send` when a timeout is configured. -/
theorem send_of_pos {σ : Type} (ts : timeoutSender) (req : request σ) (w : World σ)
    (h : ts.cfg.Timeout > 0) :
    ts.send req w =
      ((req.export_ (context.WithDeadline (req.context w.user) (w.now + ts.cfg.Timeout) w.nextID)
          w.now w.user).err,
        { user := (req.export_
            (context.WithDeadline (req.context w.user) (w.now + ts.cfg.Timeout) w.nextID)
            w.now w.user).user
          now := w.now + (req.export_
            (context.WithDeadline (req.context w.user) (w.now + ts.cfg.Timeout) w.nextID)
            w.now w.user).elapsed
          nextID := w.nextID + 1
          cancelled := w.nextID :: w.cancelled
          log := w.log ++ [Event.reqContext, Event.reqContext,
            Event.withTimeout (req.context w.user) ts.cfg.Timeout,
            Event.reqExport
              (context.WithDeadline (req.context w.user) (w.now + ts.cfg.Timeout) w.nextID),
            Event.cancel w.nextID] }) := by
  simp [send, h, request.callContext, request.callExport, World.emit, context.cancelFunc,
    context.WithTimeout]

end timeoutSender

end exporterhelper

namespace exporterhelper

/-- C1: for every request, every TimeoutSettings and every world,
`timeoutSender.send` calls the request's export exactly once (the export calls
in the log grow by exactly one entry) and returns exactly the error or nil that
this export call returned, leaving the user state that export left. -/
theorem timeoutSender_send_exports_once {σ : Type} (ts : timeoutSender) (req : request σ)
    (w : World σ) :
    ∃ ctx : Context,
      exportCalls (ts.send req w).2.log = exportCalls w.log ++ [ctx] ∧
      (ts.send req w).1 = (req.export_ ctx w.now w.user).err ∧
      (ts.send req w).2.user = (req.export_ ctx w.now w.user).user := by
  by_cases h : ts.cfg.Timeout > 0
  · refine ⟨context.WithDeadline (req.context w.user) (w.now + ts.cfg.Timeout) w.nextID, ?_⟩
    rw [timeoutSender.send_of_pos ts req w h]
    simp [exportCalls_append, exportCalls]
  · refine ⟨req.context w.user, ?_⟩
    rw [timeoutSender.send_of_not_pos ts req w h]
    simp [exportCalls_append, exportCalls]

/-- C2: when the configured Timeout is 0, `timeoutSender.send` hands to export
exactly the context returned by `req.context()`: the only calls it makes are
`req.context()` and `req.export(req.context())`, `context.WithTimeout` is not
called and no cancel function runs. -/
theorem timeoutSender_send_zero_timeout {σ : Type} (ts : timeoutSender) (req : request σ)
    (w : World σ) (h : ts.cfg.Timeout = 0) :
    (ts.send req w).2.log = w.log ++ [Event.reqContext, Event.reqExport (req.context w.user)] ∧
    exportCalls (ts.send req w).2.log = exportCalls w.log ++ [req.context w.user] ∧
    withTimeoutCalls (ts.send req w).2.log = withTimeoutCalls w.log ∧
    (ts.send req w).2.cancelled = w.cancelled ∧
    (ts.send req w).1 = (req.export_ (req.context w.user) w.now w.user).err := by
  have hn : ¬ ts.cfg.Timeout > 0 := by rw [h]; decide
  rw [timeoutSender.send_of_not_pos ts req w hn]
  simp [exportCalls_append, exportCalls, withTimeoutCalls_append, withTimeoutCalls]

/-- Witness of C2: a failing request sent with Timeout 0 under a caller
context without deadline is exported with that very context. -/
theorem timeoutSender_send_zero_timeout_witness :
    exportCalls
        (timeoutSender.send { cfg := { Timeout := 0 } } (fakeRequest (some errFake) 7)
          (fakeWorld ctxBackground)).2.log = [ctxBackground] ∧
      (timeoutSender.send { cfg := { Timeout := 0 } } (fakeRequest (some errFake) 7)
          (fakeWorld ctxBackground)).2.cancelled = [] :=
  ⟨(timeoutSender_send_zero_timeout { cfg := { Timeout := 0 } } (fakeRequest (some errFake) 7)
      (fakeWorld ctxBackground) rfl).2.1,
   (timeoutSender_send_zero_timeout { cfg := { Timeout := 0 } } (fakeRequest (some errFake) 7)
      (fakeWorld ctxBackground) rfl).2.2.2.1⟩

/-- C3: when the configured Timeout is greater than 0, `timeoutSender.send`
hands to export a context derived by `context.WithTimeout` from the request's
current context with that timeout: its parent is `req.context()`, its deadline
is the earlier of the parent's deadline and now + Timeout, and its cancel
function has run when send returns, after the export call, whatever export
returned. -/
theorem timeoutSender_send_positive_timeout {σ : Type} (ts : timeoutSender) (req : request σ)
    (w : World σ) (h : ts.cfg.Timeout > 0) :
    ∃ (ctx : Context) (id : Nat),
      exportCalls (ts.send req w).2.log = exportCalls w.log ++ [ctx] ∧
      ctx.parent = some (req.context w.user) ∧
      ctx.Deadline = some (earlier (req.context w.user).Deadline (w.now + ts.cfg.Timeout)) ∧
      ctx.cancelID = some id ∧
      id ∈ (ts.send req w).2.cancelled ∧
      (ts.send req w).2.log = w.log ++ [Event.reqContext, Event.reqContext,
        Event.withTimeout (req.context w.user) ts.cfg.Timeout, Event.reqExport ctx,
        Event.cancel id] ∧
      (ts.send req w).1 = (req.export_ ctx w.now w.user).err := by
  refine ⟨context.WithDeadline (req.context w.user) (w.now + ts.cfg.Timeout) w.nextID,
    w.nextID, ?_⟩
  rw [timeoutSender.send_of_pos ts req w h]
  refine ⟨?_, context.WithDeadline_parent _ _ _, context.WithDeadline_Deadline _ _ _,
    context.WithDeadline_cancelID _ _ _, ?_, rfl, rfl⟩
  · simp [exportCalls_append, exportCalls]
  · simp

/-- Witness of C3: a timeout of 5 s on a failing request. -/
theorem timeoutSender_send_positive_timeout_witness :
    ∃ (ctx : Context) (id : Nat),
      exportCalls
        (timeoutSender.send { cfg := DefaultTimeoutSettings } (fakeRequest (some errFake) 7)
          (fakeWorld ctxBackground)).2.log = exportCalls [] ++ [ctx] ∧
      ctx.parent = some ctxBackground ∧
      ctx.Deadline = some (earlier none (100 + 5 * Second)) ∧
      ctx.cancelID = some id ∧
      id ∈ (timeoutSender.send { cfg := DefaultTimeoutSettings } (fakeRequest (some errFake) 7)
          (fakeWorld ctxBackground)).2.cancelled ∧
      (timeoutSender.send { cfg := DefaultTimeoutSettings } (fakeRequest (some errFake) 7)
          (fakeWorld ctxBackground)).2.log = [] ++ [Event.reqContext, Event.reqContext,
        Event.withTimeout ctxBackground (5 * Second), Event.reqExport ctx, Event.cancel id] ∧
      (timeoutSender.send { cfg := DefaultTimeoutSettings } (fakeRequest (some errFake) 7)
          (fakeWorld ctxBackground)).1 = some errFake :=
  timeoutSender_send_positive_timeout { cfg := DefaultTimeoutSettings }
    (fakeRequest (some errFake) 7) (fakeWorld ctxBackground) (by decide)

end exporterhelper

namespace exporterhelper

/-- C4: `timeoutSender.send` never calls `setContext`, so for every request
whose own export leaves its stored context alone, `req.context()` after send
equals `req.context()` before send; two successive sends of the same request
both hand the same original context to `context.WithTimeout`, and the deadline
of the second attempt is the earlier of the original deadline and the second
attempt's own now + Timeout, not bounded by the first attempt's deadline. -/
theorem timeoutSender_send_keeps_request_context {σ : Type} (ts : timeoutSender)
    (req : request σ) (w : World σ)
    (hexp : ∀ (c : Context) (t : Time) (s : σ), req.context (req.export_ c t s).user = req.context s) :
    setContextCalls (ts.send req w).2.log = setContextCalls w.log ∧
    setContextCalls (ts.send req (ts.send req w).2).2.log = setContextCalls w.log ∧
    req.context (ts.send req w).2.user = req.context w.user ∧
    req.context (ts.send req (ts.send req w).2).2.user = req.context w.user ∧
    (ts.cfg.Timeout > 0 →
      withTimeoutCalls (ts.send req (ts.send req w).2).2.log =
        withTimeoutCalls w.log ++
          [(req.context w.user, ts.cfg.Timeout), (req.context w.user, ts.cfg.Timeout)] ∧
      ∃ c1 c2 : Context,
        exportCalls (ts.send req (ts.send req w).2).2.log = exportCalls w.log ++ [c1, c2] ∧
        c1.parent = some (req.context w.user) ∧
        c2.parent = some (req.context w.user) ∧
        c1.Deadline = some (earlier (req.context w.user).Deadline (w.now + ts.cfg.Timeout)) ∧
        c2.Deadline =
          some (earlier (req.context w.user).Deadline
            ((ts.send req w).2.now + ts.cfg.Timeout))) := by
  by_cases h : ts.cfg.Timeout > 0
  · have e1 := timeoutSender.send_of_pos ts req w h
    have e2 := timeoutSender.send_of_pos ts req (ts.send req w).2 h
    have hu : req.context (ts.send req w).2.user = req.context w.user := by
      rw [e1]; exact hexp _ _ _
    have hu2 : req.context (ts.send req (ts.send req w).2).2.user = req.context w.user := by
      rw [e2]; simp only []; rw [hexp]; exact hu
    have hl : (ts.send req w).2.log = w.log ++ [Event.reqContext, Event.reqContext,
        Event.withTimeout (req.context w.user) ts.cfg.Timeout,
        Event.reqExport
          (context.WithDeadline (req.context w.user) (w.now + ts.cfg.Timeout) w.nextID),
        Event.cancel w.nextID] := by
      rw [e1]
    have hl2 : (ts.send req (ts.send req w).2).2.log =
        (ts.send req w).2.log ++ [Event.reqContext, Event.reqContext,
          Event.withTimeout (req.context w.user) ts.cfg.Timeout,
          Event.reqExport
            (context.WithDeadline (req.context w.user)
              ((ts.send req w).2.now + ts.cfg.Timeout) (ts.send req w).2.nextID),
          Event.cancel (ts.send req w).2.nextID] := by
      rw [e2]; simp only []; rw [hu]
    refine ⟨?_, ?_, hu, hu2, fun _ => ⟨?_, ?_⟩⟩
    · rw [hl]; simp [setContextCalls_append, setContextCalls]
    · rw [hl2, hl]; simp [setContextCalls_append, setContextCalls]
    · rw [hl2, hl]; simp [withTimeoutCalls_append, withTimeoutCalls]
    · refine ⟨context.WithDeadline (req.context w.user) (w.now + ts.cfg.Timeout) w.nextID,
        context.WithDeadline (req.context w.user) ((ts.send req w).2.now + ts.cfg.Timeout)
          (ts.send req w).2.nextID, ?_, context.WithDeadline_parent _ _ _,
        context.WithDeadline_parent _ _ _, context.WithDeadline_Deadline _ _ _,
        context.WithDeadline_Deadline _ _ _⟩
      rw [hl2, hl]; simp [exportCalls_append, exportCalls]
  · have e1 := timeoutSender.send_of_not_pos ts req w h
    have e2 := timeoutSender.send_of_not_pos ts req (ts.send req w).2 h
    have hu : req.context (ts.send req w).2.user = req.context w.user := by
      rw [e1]; exact hexp _ _ _
    have hu2 : req.context (ts.send req (ts.send req w).2).2.user = req.context w.user := by
      rw [e2]; simp only []; rw [hexp]; exact hu
    refine ⟨?_, ?_, hu, hu2, fun hp => absurd hp h⟩
    · rw [e1]; simp [setContextCalls_append, setContextCalls]
    · rw [e2]; simp only []; rw [e1]; simp [setContextCalls_append, setContextCalls]

/-- Witness of C4: a request embedding `baseRequest` whose export fails after
7 ns, sent twice with the default timeout under a caller context without
deadline.  The stored context is still the caller's, and both attempts derive
their deadline from it: 100 + 5 s for the first, 107 + 5 s for the second. -/
theorem timeoutSender_send_keeps_request_context_witness :
    (fakeRequest (some errFake) 7).context
        (timeoutSender.send { cfg := DefaultTimeoutSettings } (fakeRequest (some errFake) 7)
          (timeoutSender.send { cfg := DefaultTimeoutSettings } (fakeRequest (some errFake) 7)
            (fakeWorld ctxBackground)).2).2.user = ctxBackground ∧
      withTimeoutCalls
        (timeoutSender.send { cfg := DefaultTimeoutSettings } (fakeRequest (some errFake) 7)
          (timeoutSender.send { cfg := DefaultTimeoutSettings } (fakeRequest (some errFake) 7)
            (fakeWorld ctxBackground)).2).2.log =
        [(ctxBackground, 5 * Second), (ctxBackground, 5 * Second)] :=
  ⟨(timeoutSender_send_keeps_request_context { cfg := DefaultTimeoutSettings }
      (fakeRequest (some errFake) 7) (fakeWorld ctxBackground) (fun _ _ _ => rfl)).2.2.2.1,
   ((timeoutSender_send_keeps_request_context { cfg := DefaultTimeoutSettings }
      (fakeRequest (some errFake) 7) (fakeWorld ctxBackground) (fun _ _ _ => rfl)).2.2.2.2
        (by decide)).1⟩

end exporterhelper

namespace exporterhelper

/-- C5: `fromOptions` called with no options returns settings whose Timeout is
5 seconds, whose QueueSettings.Enabled is false and whose RetrySettings.Enabled
is false; `DefaultTimeoutSettings` returns Timeout = 5 seconds. -/
theorem fromOptions_no_options_defaults (σ : Type) :
    (fromOptions ([] : List (ExporterOption σ))).TimeoutSettings.Timeout = 5 * Second ∧
    (fromOptions ([] : List (ExporterOption σ))).QueueSettings.Enabled = false ∧
    (fromOptions ([] : List (ExporterOption σ))).RetrySettings.Enabled = false ∧
    DefaultTimeoutSettings.Timeout = 5 * Second ∧
    5 * Second = (5000000000 : Int) :=
  ⟨rfl, rfl, rfl, rfl, by decide⟩

/-- C6: `baseExporter.Start` starts the wrapped component first and the
queued-retry sender second.  If the component's Start returns an error, Start
returns that same error and the queued-retry sender is never started;
otherwise Start returns exactly the result of the queued-retry sender's start,
run on the state the component's Start left. -/
theorem baseExporter_Start_component_then_qrSender {σ : Type} (m : queuedRetryLifecycle σ)
    (be : baseExporter σ) (ctx : Context) (host : Host) (w : World σ) :
    (∀ err : Error, (be.Component.Start ctx host w.user).1 = some err →
      (be.Start m ctx host w).1 = some err ∧
      (be.Start m ctx host w).2.log = w.log ++ [Event.componentStart] ∧
      (be.Start m ctx host w).2.user = (be.Component.Start ctx host w.user).2) ∧
    ((be.Component.Start ctx host w.user).1 = none →
      (be.Start m ctx host w).1 =
        (m.start be.qrSender (be.Component.Start ctx host w.user).2).1 ∧
      (be.Start m ctx host w).2.log = w.log ++ [Event.componentStart, Event.qrSenderStart] ∧
      (be.Start m ctx host w).2.user =
        (m.start be.qrSender (be.Component.Start ctx host w.user).2).2) := by
  constructor
  · intro err h
    simp [baseExporter.Start, Component.callStart, h, World.emit]
  · intro h
    simp [baseExporter.Start, Component.callStart, queuedRetrySender.callStart, h, World.emit]

/-- Witness of C6: with a failing start function the exporter's Start returns
its error and only the component was started; with the default start function
the queued-retry sender is started second. -/
theorem baseExporter_Start_component_then_qrSender_witness :
    ((baseExporter.Start fakeLifecycle
        (newBaseExporter Level.LevelNormal fakeCfg fakeSet (fromOptions [WithStart failingStart]))
        ctxBackground fakeHost counterWorld).1 = some errFake ∧
      (baseExporter.Start fakeLifecycle
        (newBaseExporter Level.LevelNormal fakeCfg fakeSet (fromOptions [WithStart failingStart]))
        ctxBackground fakeHost counterWorld).2.log = [] ++ [Event.componentStart] ∧
      (baseExporter.Start fakeLifecycle
        (newBaseExporter Level.LevelNormal fakeCfg fakeSet (fromOptions [WithStart failingStart]))
        ctxBackground fakeHost counterWorld).2.user = 1) ∧
    (baseExporter.Start fakeLifecycle
        (newBaseExporter Level.LevelNormal fakeCfg fakeSet (fromOptions []))
        ctxBackground fakeHost counterWorld).2.log =
      [] ++ [Event.componentStart, Event.qrSenderStart] :=
  ⟨(baseExporter_Start_component_then_qrSender fakeLifecycle
      (newBaseExporter Level.LevelNormal fakeCfg fakeSet (fromOptions [WithStart failingStart]))
      ctxBackground fakeHost counterWorld).1 errFake rfl,
   ((baseExporter_Start_component_then_qrSender fakeLifecycle
      (newBaseExporter Level.LevelNormal fakeCfg fakeSet (fromOptions []))
      ctxBackground fakeHost counterWorld).2 rfl).2.1⟩

/-- C7: `baseExporter.Shutdown` always calls both shutdowns, the queued-retry
sender's before the wrapped component's, and returns exactly the error returned
by the wrapped component's Shutdown (run on the state the sender's shutdown
left). -/
theorem baseExporter_Shutdown_qrSender_then_component {σ : Type} (m : queuedRetryLifecycle σ)
    (be : baseExporter σ) (ctx : Context) (w : World σ) :
    (be.Shutdown m ctx w).2.log = w.log ++ [Event.qrSenderShutdown, Event.componentShutdown] ∧
    (be.Shutdown m ctx w).1 = (be.Component.Shutdown ctx (m.shutdown be.qrSender w.user)).1 ∧
    (be.Shutdown m ctx w).2.user =
      (be.Component.Shutdown ctx (m.shutdown be.qrSender w.user)).2 := by
  simp [baseExporter.Shutdown, Component.callShutdown, queuedRetrySender.callShutdown,
    World.emit]

end exporterhelper

namespace exporterhelper

/-- With bodies that always return, the outcome of Shutdown is the result of
the embedding without panics. -/
theorem ShutdownOutcome_returning {σ : Type} (m : queuedRetryLifecycle σ) (be : baseExporter σ)
    (ctx : Context) (w : World σ) :
    be.ShutdownOutcome (shutdownBodies.returning m be.Component) ctx w =
      Outcome.returned (be.Shutdown m ctx w) := by
  simp [baseExporter.ShutdownOutcome, shutdownBodies.returning, baseExporter.Shutdown,
    Component.callShutdown, queuedRetrySender.callShutdown, World.emit]

/-- C8, as stated, fails: on an exporter built with `WithShutdown` of a function
that fails, the second Shutdown returns that error and has run both shutdowns
again; and whatever the body of the queued-retry sender's shutdown does, a
second Shutdown of this exporter never returns nil: it panics or returns the
error. -/
theorem baseExporter_Shutdown_twice_counterexample :
    baseExporter.ShutdownOutcome (shutdownBodies.returning fakeLifecycle failingExporter.Component)
        failingExporter ctxBackground counterWorld =
      Outcome.returned (some errFake,
        { user := 101, now := 100, nextID := 0, cancelled := [],
          log := [Event.qrSenderShutdown, Event.componentShutdown] }) ∧
    baseExporter.ShutdownOutcome (shutdownBodies.returning fakeLifecycle failingExporter.Component)
        failingExporter ctxBackground
        { user := 101, now := 100, nextID := 0, cancelled := [],
          log := [Event.qrSenderShutdown, Event.componentShutdown] } =
      Outcome.returned (some errFake,
        { user := 202, now := 100, nextID := 0, cancelled := [],
          log := [Event.qrSenderShutdown, Event.componentShutdown,
            Event.qrSenderShutdown, Event.componentShutdown] }) ∧
    ∀ (q : queuedRetrySender → Nat → Outcome Nat Nat) (w1 w2 : World Nat),
      ¬ baseExporter.ShutdownOutcome
          { qrSenderShutdown := q
            componentShutdown := fun ctx s => Outcome.returned (failingExporter.Component.Shutdown ctx s) }
          failingExporter ctxBackground w1 = Outcome.returned (none, w2) := by
  refine ⟨rfl, rfl, ?_⟩
  intro q w1 w2 h
  unfold baseExporter.ShutdownOutcome at h
  cases hq : q failingExporter.qrSender w1.user with
  | panicked s => simp [hq] at h
  | returned s =>
    simp only [hq] at h
    injection h with h
    have h1 := congrArg Prod.fst h
    exact absurd h1 (by simp [failingExporter, newBaseExporter, fromOptions, WithShutdown,
      componenthelperNew, failingShutdown])

/-- C8, amended: a second call of Shutdown, made in the world the first call
returned in, is not a no-op: it runs the queued-retry sender's shutdown again
and then the wrapped component's Shutdown.  It panics exactly when one of these
two calls panics, the component not being reached when the sender's shutdown
panics, and otherwise returns exactly what that second component Shutdown
returns; so the second call does not panic and returns without error exactly
when the sender's second shutdown returns and the component's second Shutdown
returns nil. -/
theorem baseExporter_Shutdown_second_call {σ : Type} (b : shutdownBodies σ)
    (be : baseExporter σ) (ctx : Context) (w : World σ) (e1 : Option Error) (w1 : World σ)
    (h1 : be.ShutdownOutcome b ctx w = Outcome.returned (e1, w1)) :
    w1.log = w.log ++ [Event.qrSenderShutdown, Event.componentShutdown] ∧
    (∀ s : σ, b.qrSenderShutdown be.qrSender w1.user = Outcome.panicked s →
      be.ShutdownOutcome b ctx w1 =
        Outcome.panicked { w1 with log := w1.log ++ [Event.qrSenderShutdown], user := s }) ∧
    (∀ s s1 : σ, b.qrSenderShutdown be.qrSender w1.user = Outcome.returned s →
      b.componentShutdown ctx s = Outcome.panicked s1 →
      be.ShutdownOutcome b ctx w1 =
        Outcome.panicked
          { w1 with log := w1.log ++ [Event.qrSenderShutdown, Event.componentShutdown],
                    user := s1 }) ∧
    (∀ (s : σ) (r : Option Error × σ), b.qrSenderShutdown be.qrSender w1.user = Outcome.returned s →
      b.componentShutdown ctx s = Outcome.returned r →
      be.ShutdownOutcome b ctx w1 =
        Outcome.returned (r.1,
          { w1 with log := w1.log ++ [Event.qrSenderShutdown, Event.componentShutdown],
                    user := r.2 })) ∧
    ((∃ w2 : World σ, be.ShutdownOutcome b ctx w1 = Outcome.returned (none, w2)) ↔
      ∃ s s2 : σ, b.qrSenderShutdown be.qrSender w1.user = Outcome.returned s ∧
        b.componentShutdown ctx s = Outcome.returned (none, s2)) := by
  refine ⟨?_, ?_, ?_, ?_, ?_⟩
  · unfold baseExporter.ShutdownOutcome at h1
    cases hq : b.qrSenderShutdown be.qrSender w.user with
    | panicked s => simp [hq] at h1
    | returned s =>
      simp only [hq] at h1
      cases hc : b.componentShutdown ctx s with
      | panicked s1 => simp [hc] at h1
      | returned r =>
        simp only [hc] at h1
        injection h1 with h1
        have h2 := congrArg Prod.snd h1
        simp only [] at h2
        rw [← h2]
        simp [World.emit]
  · intro s hq
    simp [baseExporter.ShutdownOutcome, hq, World.emit]
  · intro s s1 hq hc
    simp [baseExporter.ShutdownOutcome, hq, hc, World.emit]
  · intro s r hq hc
    simp [baseExporter.ShutdownOutcome, hq, hc, World.emit]
  · constructor
    · rintro ⟨w2, h2⟩
      unfold baseExporter.ShutdownOutcome at h2
      cases hq : b.qrSenderShutdown be.qrSender w1.user with
      | panicked s => simp [hq] at h2
      | returned s =>
        simp only [hq] at h2
        cases hc : b.componentShutdown ctx s with
        | panicked s1 => simp [hc] at h2
        | returned r =>
          simp only [hc] at h2
          injection h2 with h2
          have h3 := congrArg Prod.fst h2
          simp only [] at h3
          refine ⟨s, r.2, rfl, ?_⟩
          rw [← h3]
          exact hc
    · rintro ⟨s, s2, hq, hc⟩
      refine ⟨{ ((w1.emit Event.qrSenderShutdown).emit Event.componentShutdown) with
        user := s2 }, ?_⟩
      simp [baseExporter.ShutdownOutcome, hq, hc]

/-- Witness of amended C8: on an exporter built without options, with bodies
that return, the second Shutdown returns nil after running both shutdowns
again; with a sender shutdown that cannot be repeated, the second Shutdown
panics before the component is reached. -/
theorem baseExporter_Shutdown_second_call_witness :
    baseExporter.ShutdownOutcome (shutdownBodies.returning fakeLifecycle defaultExporter.Component)
        defaultExporter ctxBackground
        { user := 100, now := 100, nextID := 0, cancelled := [],
          log := [Event.qrSenderShutdown, Event.componentShutdown] } =
      Outcome.returned (none,
        { user := 200, now := 100, nextID := 0, cancelled := [],
          log := [Event.qrSenderShutdown, Event.componentShutdown] ++
            [Event.qrSenderShutdown, Event.componentShutdown] }) ∧
    baseExporter.ShutdownOutcome
        { qrSenderShutdown := shutdownOnce
          componentShutdown := fun ctx s =>
            Outcome.returned (defaultExporter.Component.Shutdown ctx s) }
        defaultExporter ctxBackground
        { user := 100, now := 100, nextID := 0, cancelled := [],
          log := [Event.qrSenderShutdown, Event.componentShutdown] } =
      Outcome.panicked
        { user := 100, now := 100, nextID := 0, cancelled := [],
          log := [Event.qrSenderShutdown, Event.componentShutdown] ++
            [Event.qrSenderShutdown] } :=
  ⟨(baseExporter_Shutdown_second_call
      (shutdownBodies.returning fakeLifecycle defaultExporter.Component) defaultExporter
      ctxBackground counterWorld none
      { user := 100, now := 100, nextID := 0, cancelled := [],
        log := [Event.qrSenderShutdown, Event.componentShutdown] } rfl).2.2.2.1 200 (none, 200)
      rfl rfl,
   (baseExporter_Shutdown_second_call
      { qrSenderShutdown := shutdownOnce
        componentShutdown := fun ctx s =>
          Outcome.returned (defaultExporter.Component.Shutdown ctx s) }
      defaultExporter ctxBackground counterWorld none
      { user := 100, now := 100, nextID := 0, cancelled := [],
        log := [Event.qrSenderShutdown, Event.componentShutdown] } rfl).2.1 100 rfl⟩

/-- C9, as stated, fails: in the chain built by `newBaseExporter` the entry
sender is not the timeout sender but the queued-retry sender, and the timeout
sender has no inner sender at all. -/
theorem newBaseExporter_chain_counterexample :
    ¬ ((newBaseExporter Level.LevelNormal fakeCfg fakeSet
          (fromOptions ([] : List (ExporterOption Nat)))).entrySender.isTimeout = true ∧
        ∃ s : requestSender,
          (newBaseExporter Level.LevelNormal fakeCfg fakeSet
            (fromOptions ([] : List (ExporterOption Nat)))).entrySender.inner = some s ∧
          s.isQueuedRetry = true) ∧
    (newBaseExporter Level.LevelNormal fakeCfg fakeSet
        (fromOptions ([] : List (ExporterOption Nat)))).entrySender.isQueuedRetry = true ∧
    (requestSender.timeout { cfg := DefaultTimeoutSettings }).inner = none := by
  refine ⟨?_, rfl, rfl⟩
  rintro ⟨h, _⟩
  exact absurd h (by decide)

/-- C9, amended: in the sender chain built by `newBaseExporter` the exporter's
entry sender is the queued-retry sender itself (`be.sender = be.qrSender`); the
timeout sender, configured with the base settings' TimeoutSettings, is the next
sender handed to the queued-retry sender and is the innermost stage, with no
inner sender: a request passes the queued-retry sender first, then its retrying
consumer sender, and the timeout sender last. -/
theorem newBaseExporter_chain {σ : Type} (level : Level) (cfg : ExporterConfig)
    (set : ExporterCreateSettings) (bs : baseSettings σ) :
    (newBaseExporter level cfg set bs).sender = senderRef.qrSender ∧
    (newBaseExporter level cfg set bs).entrySender =
      (newBaseExporter level cfg set bs).qrSender.asSender ∧
    (newBaseExporter level cfg set bs).entrySender.isQueuedRetry = true ∧
    (newBaseExporter level cfg set bs).entrySender.stages =
      [requestSender.queuedRetry cfg.ID.String bs.QueueSettings
          (requestSender.retry bs.RetrySettings
            (requestSender.timeout { cfg := bs.TimeoutSettings })),
        requestSender.retry bs.RetrySettings
          (requestSender.timeout { cfg := bs.TimeoutSettings }),
        requestSender.timeout { cfg := bs.TimeoutSettings }] ∧
    (requestSender.timeout { cfg := bs.TimeoutSettings }).inner = none :=
  ⟨rfl, rfl, rfl, rfl, rfl⟩

end exporterhelper

namespace obsreport

theorem acceptedKey_ne_refusedKey (dataType : DataType) :
    acceptedKey dataType ≠ refusedKey dataType := by
  cases dataType <;> decide

theorem endSpan_accepted (span : Span) (format : String) (n : Int) (err : Option Error)
    (dataType : DataType) :
    (Receiver.endSpan span format n err dataType).intAttribute (acceptedKey dataType) =
      some (opCounts n err).1 := by
  have hne := acceptedKey_ne_refusedKey dataType
  simp [Receiver.endSpan, Span.intAttribute, List.find?, hne.symm]

theorem endSpan_refused (span : Span) (format : String) (n : Int) (err : Option Error)
    (dataType : DataType) :
    (Receiver.endSpan span format n err dataType).intAttribute (refusedKey dataType) =
      some (opCounts n err).2 := by
  simp [Receiver.endSpan, Span.intAttribute, List.find?]

theorem EndOp_eq_endOp (rec : Receiver) (dataType : DataType) (span : Span) (format : String)
    (n : Int) (err : Option Error) (t : Telemetry) :
    rec.EndOp dataType span format n err t = rec.endOp span format n err dataType t := by
  cases dataType <;> rfl

theorem opCounts_sum (n : Int) (err : Option Error) :
    (opCounts n err).1 + (opCounts n err).2 = n := by
  cases err with
  | none => simp [opCounts]
  | some e => cases e <;> simp [opCounts]

theorem opCounts_full (n : Int) (e : Error) (h : isPartialFailure e = false) :
    opCounts n (some e) = (0, n) := by
  cases e with
  | new msg => rfl
  | PartialScrapeError e f => simp [isPartialFailure] at h

/-- C10, as stated, fails: with the metric level that disables counters, a
receive operation on 13 spans that ends with `errFake` has refused count 13 on
its span, yet the global refused counter does not grow by 13, it stays 0. -/
theorem receiver_EndOp_counterexample :
    (Receiver.endSpan fakeReceiver.StartTracesOp "fakeFormat" 13 (some exporterhelper.errFake)
        DataType.TracesDataType).intAttribute Key.RefusedSpansKey = some 13 ∧
    (fakeReceiver.EndOp DataType.TracesDataType fakeReceiver.StartTracesOp "fakeFormat" 13
        (some exporterhelper.errFake) (emptyTelemetry Level.LevelNone)).counters
        (fakeReceiver.tag Key.RefusedSpansKey) = 0 ∧
    ¬ (fakeReceiver.EndOp DataType.TracesDataType fakeReceiver.StartTracesOp "fakeFormat" 13
        (some exporterhelper.errFake) (emptyTelemetry Level.LevelNone)).counters
        (fakeReceiver.tag Key.RefusedSpansKey) =
      (emptyTelemetry Level.LevelNone).counters (fakeReceiver.tag Key.RefusedSpansKey) + 13 := by
  decide

/-- C10, amended: for every receiver End operation (traces, logs, metrics) with
item count n and every error: the completed span carries accepted = n and
refused = 0 when err is nil, and accepted = 0 and refused = n when err is a
non-nil error that is a full failure (not a scraper's partial scrape error);
for every err accepted + refused = n; and when the metric level does not
disable counters the global accepted and refused counters grow by exactly
those amounts, while with counters disabled they do not change. -/
theorem receiver_EndOp_counts (rec : Receiver) (dataType : DataType) (span : Span)
    (format : String) (n : Int) (err : Option Error) (t : Telemetry) :
    (rec.EndOp dataType span format n err t).completed =
      t.completed ++ [Receiver.endSpan span format n err dataType] ∧
    (err = none →
      (Receiver.endSpan span format n err dataType).intAttribute (acceptedKey dataType) = some n ∧
      (Receiver.endSpan span format n err dataType).intAttribute (refusedKey dataType) = some 0) ∧
    (∀ e : Error, err = some e → isPartialFailure e = false →
      (Receiver.endSpan span format n err dataType).intAttribute (acceptedKey dataType) = some 0 ∧
      (Receiver.endSpan span format n err dataType).intAttribute (refusedKey dataType) = some n) ∧
    (∃ a r : Int,
      (Receiver.endSpan span format n err dataType).intAttribute (acceptedKey dataType) = some a ∧
      (Receiver.endSpan span format n err dataType).intAttribute (refusedKey dataType) = some r ∧
      a + r = n ∧
      (t.level ≠ Level.LevelNone →
        (rec.EndOp dataType span format n err t).counters (rec.tag (acceptedKey dataType)) =
          t.counters (rec.tag (acceptedKey dataType)) + a ∧
        (rec.EndOp dataType span format n err t).counters (rec.tag (refusedKey dataType)) =
          t.counters (rec.tag (refusedKey dataType)) + r) ∧
      (t.level = Level.LevelNone →
        (rec.EndOp dataType span format n err t).counters = t.counters)) := by
  have hne := acceptedKey_ne_refusedKey dataType
  rw [EndOp_eq_endOp]
  refine ⟨?_, ?_, ?_, (opCounts n err).1, (opCounts n err).2, endSpan_accepted _ _ _ _ _,
    endSpan_refused _ _ _ _ _, opCounts_sum n err, ?_, ?_⟩
  · unfold Receiver.endOp
    by_cases hl : t.level = Level.LevelNone <;> simp [hl, Telemetry.record]
  · intro h
    rw [endSpan_accepted, endSpan_refused, h]
    simp [opCounts]
  · intro e he hp
    rw [endSpan_accepted, endSpan_refused, he, opCounts_full n e hp]
    simp
  · intro hl
    have htag : rec.tag (acceptedKey dataType) ≠ rec.tag (refusedKey dataType) := by
      intro h
      exact hne (congrArg Tag.measure h)
    simp [Receiver.endOp, hl, Telemetry.record, htag, htag.symm]
  · intro hl
    simp [Receiver.endOp, hl]

/-- Witness of amended C10: the first operation of TestReceiveTraceDataOp, 13
spans ending with `errFake` at the normal metric level. -/
theorem receiver_EndOp_counts_witness :
    (Receiver.endSpan fakeReceiver.StartTracesOp "fakeFormat" 13 (some exporterhelper.errFake)
        DataType.TracesDataType).intAttribute (acceptedKey DataType.TracesDataType) = some 0 ∧
    (Receiver.endSpan fakeReceiver.StartTracesOp "fakeFormat" 13 (some exporterhelper.errFake)
        DataType.TracesDataType).intAttribute (refusedKey DataType.TracesDataType) = some 13 :=
  (receiver_EndOp_counts fakeReceiver DataType.TracesDataType fakeReceiver.StartTracesOp
    "fakeFormat" 13 (some exporterhelper.errFake) (emptyTelemetry Level.LevelNormal)).2.2.1
    exporterhelper.errFake rfl rfl

end obsreport

namespace obsreport

theorem sentKey_ne_failedToSendKey (dataType : DataType) :
    sentKey dataType ≠ failedToSendKey dataType := by
  cases dataType <;> decide

theorem Exporter.endSpan_sent (span : Span) (n : Int) (err : Option Error)
    (dataType : DataType) :
    (Exporter.endSpan span n err dataType).intAttribute (sentKey dataType) =
      some (opCounts n err).1 := by
  have hne := sentKey_ne_failedToSendKey dataType
  simp [Exporter.endSpan, Span.intAttribute, List.find?, hne.symm]

theorem Exporter.endSpan_failedToSend (span : Span) (n : Int) (err : Option Error)
    (dataType : DataType) :
    (Exporter.endSpan span n err dataType).intAttribute (failedToSendKey dataType) =
      some (opCounts n err).2 := by
  simp [Exporter.endSpan, Span.intAttribute, List.find?]

theorem Exporter.EndOp_eq_exporter_endOp (exp : Exporter) (dataType : DataType) (span : Span) (n : Int)
    (err : Option Error) (t : Telemetry) :
    exp.EndOp dataType span n err t = exp.endOp span n err dataType t := by
  cases dataType <;> rfl

/-- C11: for every exporter End operation (traces, metrics, logs) with item
count n: when err is nil the sent count is n and the failed-to-send count is 0;
when err is a non-nil error that is a full failure (not a scraper's partial
scrape error) the sent count is 0 and the failed-to-send count is n; and
sent + failed = n for every completed export operation, whatever the error.
When the metric level does not disable counters, globally or on the exporter,
the sent and failed-to-send counters grow by those amounts; when it does, they
do not change. -/
theorem exporter_EndOp_counts (exp : Exporter) (dataType : DataType) (span : Span) (n : Int)
    (err : Option Error) (t : Telemetry) :
    (exp.EndOp dataType span n err t).completed =
      t.completed ++ [Exporter.endSpan span n err dataType] ∧
    (err = none →
      (Exporter.endSpan span n err dataType).intAttribute (sentKey dataType) = some n ∧
      (Exporter.endSpan span n err dataType).intAttribute (failedToSendKey dataType) = some 0) ∧
    (∀ e : Error, err = some e → isPartialFailure e = false →
      (Exporter.endSpan span n err dataType).intAttribute (sentKey dataType) = some 0 ∧
      (Exporter.endSpan span n err dataType).intAttribute (failedToSendKey dataType) = some n) ∧
    (∃ a r : Int,
      (Exporter.endSpan span n err dataType).intAttribute (sentKey dataType) = some a ∧
      (Exporter.endSpan span n err dataType).intAttribute (failedToSendKey dataType) = some r ∧
      a + r = n ∧
      (t.level ≠ Level.LevelNone → exp.settings.Level ≠ Level.LevelNone →
        (exp.EndOp dataType span n err t).counters (exp.tag (sentKey dataType)) =
          t.counters (exp.tag (sentKey dataType)) + a ∧
        (exp.EndOp dataType span n err t).counters (exp.tag (failedToSendKey dataType)) =
          t.counters (exp.tag (failedToSendKey dataType)) + r) ∧
      (t.level = Level.LevelNone ∨ exp.settings.Level = Level.LevelNone →
        (exp.EndOp dataType span n err t).counters = t.counters)) := by
  have hne := sentKey_ne_failedToSendKey dataType
  rw [Exporter.EndOp_eq_exporter_endOp]
  refine ⟨?_, ?_, ?_, (opCounts n err).1, (opCounts n err).2, Exporter.endSpan_sent _ _ _ _,
    Exporter.endSpan_failedToSend _ _ _ _, opCounts_sum n err, ?_, ?_⟩
  · unfold Exporter.endOp
    by_cases hl : t.level = Level.LevelNone ∨ exp.settings.Level = Level.LevelNone <;>
      simp [hl, Telemetry.record]
  · intro h
    rw [Exporter.endSpan_sent, Exporter.endSpan_failedToSend, h]
    simp [opCounts]
  · intro e he hp
    rw [Exporter.endSpan_sent, Exporter.endSpan_failedToSend, he, opCounts_full n e hp]
    simp
  · intro hl hx
    have htag : exp.tag (sentKey dataType) ≠ exp.tag (failedToSendKey dataType) := by
      intro h
      exact hne (congrArg Tag.measure h)
    simp [Exporter.endOp, hl, hx, Telemetry.record, htag, htag.symm]
  · intro hl
    simp [Exporter.endOp, hl]

/-- Witness of C11: the second operation of TestExportTraceDataOp, 14 spans
ending with `errFake`. -/
theorem exporter_EndOp_counts_witness :
    (Exporter.endSpan (fakeExporter Level.LevelNormal).StartTracesOp 14
        (some exporterhelper.errFake) DataType.TracesDataType).intAttribute
          (sentKey DataType.TracesDataType) = some 0 ∧
    (Exporter.endSpan (fakeExporter Level.LevelNormal).StartTracesOp 14
        (some exporterhelper.errFake) DataType.TracesDataType).intAttribute
          (failedToSendKey DataType.TracesDataType) = some 14 :=
  (exporter_EndOp_counts (fakeExporter Level.LevelNormal) DataType.TracesDataType
    (fakeExporter Level.LevelNormal).StartTracesOp 14 (some exporterhelper.errFake)
    (emptyTelemetry Level.LevelNormal)).2.2.1 exporterhelper.errFake rfl rfl

end obsreport

namespace obsreport

theorem Scraper.endSpan_scraped (span : Span) (n : Int) (err : Option Error) :
    (Scraper.endSpan span n err).intAttribute Key.ScrapedMetricPointsKey =
      some (scrapeCounts n err).1 := by
  simp [Scraper.endSpan, Span.intAttribute, List.find?]

theorem Scraper.endSpan_errored (span : Span) (n : Int) (err : Option Error) :
    (Scraper.endSpan span n err).intAttribute Key.ErroredMetricPointsKey =
      some (scrapeCounts n err).2 := by
  simp [Scraper.endSpan, Span.intAttribute, List.find?]

/-- C12: for every scrape operation of n points started with StartMetricsOp and
ended with EndMetricsOp: if err is nil, scraped = n and errored = 0; if err is
a partial scrape error carrying Failed = f, scraped = n, not reduced, and
errored = f; if err is any other error, scraped = 0 and errored = n; the span
status is error exactly when err is not nil, with the error's message; and
unless the metric level disables counters the scraped and errored counters grow
by those amounts. -/
theorem scraper_EndMetricsOp_counts (scrp : Scraper) (n : Int) (err : Option Error)
    (t : Telemetry) :
    (scrp.EndMetricsOp scrp.StartMetricsOp n err t).completed =
      t.completed ++ [Scraper.endSpan scrp.StartMetricsOp n err] ∧
    (err = none →
      (Scraper.endSpan scrp.StartMetricsOp n err).intAttribute Key.ScrapedMetricPointsKey =
        some n ∧
      (Scraper.endSpan scrp.StartMetricsOp n err).intAttribute Key.ErroredMetricPointsKey =
        some 0) ∧
    (∀ (e : Error) (f : Int), err = some (Error.PartialScrapeError e f) →
      (Scraper.endSpan scrp.StartMetricsOp n err).intAttribute Key.ScrapedMetricPointsKey =
        some n ∧
      (Scraper.endSpan scrp.StartMetricsOp n err).intAttribute Key.ErroredMetricPointsKey =
        some f) ∧
    (∀ e : Error, err = some e → isPartialFailure e = false →
      (Scraper.endSpan scrp.StartMetricsOp n err).intAttribute Key.ScrapedMetricPointsKey =
        some 0 ∧
      (Scraper.endSpan scrp.StartMetricsOp n err).intAttribute Key.ErroredMetricPointsKey =
        some n) ∧
    ((Scraper.endSpan scrp.StartMetricsOp n err).statusCode = StatusCode.Error ↔ err ≠ none) ∧
    (∀ e : Error, err = some e →
      (Scraper.endSpan scrp.StartMetricsOp n err).statusMessage = errorMessage e) ∧
    (t.level ≠ Level.LevelNone →
      (scrp.EndMetricsOp scrp.StartMetricsOp n err t).counters
          (scrp.tag Key.ScrapedMetricPointsKey) =
        t.counters (scrp.tag Key.ScrapedMetricPointsKey) + (scrapeCounts n err).1 ∧
      (scrp.EndMetricsOp scrp.StartMetricsOp n err t).counters
          (scrp.tag Key.ErroredMetricPointsKey) =
        t.counters (scrp.tag Key.ErroredMetricPointsKey) + (scrapeCounts n err).2) := by
  refine ⟨?_, ?_, ?_, ?_, ?_, ?_, ?_⟩
  · unfold Scraper.EndMetricsOp
    by_cases hl : t.level = Level.LevelNone <;> simp [hl, Telemetry.record]
  · intro h
    rw [Scraper.endSpan_scraped, Scraper.endSpan_errored, h]
    simp [scrapeCounts]
  · intro e f h
    rw [Scraper.endSpan_scraped, Scraper.endSpan_errored, h]
    simp [scrapeCounts]
  · intro e h hp
    rw [Scraper.endSpan_scraped, Scraper.endSpan_errored, h]
    cases e with
    | new msg => simp [scrapeCounts]
    | PartialScrapeError e f => simp [isPartialFailure] at hp
  · cases err with
    | none => simp [Scraper.endSpan, Scraper.StartMetricsOp]
    | some e => simp [Scraper.endSpan]
  · intro e h
    rw [h]
    simp [Scraper.endSpan]
  · intro hl
    have htag : scrp.tag Key.ScrapedMetricPointsKey ≠ scrp.tag Key.ErroredMetricPointsKey := by
      intro h
      have hm : Key.ScrapedMetricPointsKey = Key.ErroredMetricPointsKey := congrArg Tag.measure h
      exact absurd hm (by decide)
    simp [Scraper.EndMetricsOp, hl, Telemetry.record, htag, htag.symm]

/-- Witness of C12: the first operation of TestScrapeMetricsDataOp, 23 points
ending with a partial scrape error that carries 1 failed point. -/
theorem scraper_EndMetricsOp_counts_witness :
    (Scraper.endSpan fakeScraper.StartMetricsOp 23 (some fakePartialErr)).intAttribute
        Key.ScrapedMetricPointsKey = some 23 ∧
    (Scraper.endSpan fakeScraper.StartMetricsOp 23 (some fakePartialErr)).intAttribute
        Key.ErroredMetricPointsKey = some 1 :=
  (scraper_EndMetricsOp_counts fakeScraper 23 (some fakePartialErr)
    (emptyTelemetry Level.LevelNormal)).2.2.1 exporterhelper.errFake 1 rfl

/-- C13, as stated, fails for the scraper: on the partial scrape error of
TestScrapeMetricsDataOp, 1 failed point of 23, the scraped count recorded is
23, not 23 - 1, and scraped + errored is 24, not 23. -/
theorem partial_failure_counts_counterexample :
    (Scraper.endSpan fakeScraper.StartMetricsOp 23 (some fakePartialErr)).intAttribute
        Key.ScrapedMetricPointsKey = some 23 ∧
    (Scraper.endSpan fakeScraper.StartMetricsOp 23 (some fakePartialErr)).intAttribute
        Key.ErroredMetricPointsKey = some 1 ∧
    ¬ (Scraper.endSpan fakeScraper.StartMetricsOp 23 (some fakePartialErr)).intAttribute
        Key.ScrapedMetricPointsKey = some (23 - 1) ∧
    ¬ (scrapeCounts 23 (some fakePartialErr)).1 + (scrapeCounts 23 (some fakePartialErr)).2 =
        23 := by
  decide

/-- C13, amended: for every receiver or exporter End operation whose error is a
partial failure carrying a failed count f on a batch of itemCount items, the
accepted (sent) count recorded is itemCount - f and the refused (failed) count
is f, so the two sum to itemCount; for the scraper's EndMetricsOp the scraped
count recorded is itemCount, not reduced, and the errored count is f. -/
theorem partial_failure_counts (dataType : DataType) (span : Span) (format : String)
    (itemCount : Int) (e : Error) (f : Int) :
    ((Receiver.endSpan span format itemCount (some (Error.PartialScrapeError e f))
        dataType).intAttribute (acceptedKey dataType) = some (itemCount - f) ∧
      (Receiver.endSpan span format itemCount (some (Error.PartialScrapeError e f))
        dataType).intAttribute (refusedKey dataType) = some f) ∧
    ((Exporter.endSpan span itemCount (some (Error.PartialScrapeError e f))
        dataType).intAttribute (sentKey dataType) = some (itemCount - f) ∧
      (Exporter.endSpan span itemCount (some (Error.PartialScrapeError e f))
        dataType).intAttribute (failedToSendKey dataType) = some f) ∧
    (itemCount - f) + f = itemCount ∧
    ((Scraper.endSpan span itemCount (some (Error.PartialScrapeError e f))).intAttribute
        Key.ScrapedMetricPointsKey = some itemCount ∧
      (Scraper.endSpan span itemCount (some (Error.PartialScrapeError e f))).intAttribute
        Key.ErroredMetricPointsKey = some f) := by
  refine ⟨⟨?_, ?_⟩, ⟨?_, ?_⟩, by omega, ⟨?_, ?_⟩⟩
  · rw [endSpan_accepted]; rfl
  · rw [endSpan_refused]; rfl
  · rw [Exporter.endSpan_sent]; rfl
  · rw [Exporter.endSpan_failedToSend]; rfl
  · rw [Scraper.endSpan_scraped]; rfl
  · rw [Scraper.endSpan_errored]; rfl

/-- C14: span names are built exactly as "receiver/" + receiverID +
"/TraceDataReceived" (resp. "/LogsReceived", "/MetricsReceived") for receiver
operations, "exporter/" + exporterID + "/traces" (resp. "/metrics", "/logs")
for exporter operations, and "scraper/" + receiverID + "/" + scraperID +
"/MetricsScraped" for scrape operations, for every component identifier. -/
theorem span_names (rs : ReceiverSettings) (es : exporterhelper.ExporterSettings)
    (ss : ScraperSettings) :
    (NewReceiver rs).StartTracesOp.name =
      "receiver/" ++ rs.ReceiverID.String ++ "/TraceDataReceived" ∧
    (NewReceiver rs).StartLogsOp.name =
      "receiver/" ++ rs.ReceiverID.String ++ "/LogsReceived" ∧
    (NewReceiver rs).StartMetricsOp.name =
      "receiver/" ++ rs.ReceiverID.String ++ "/MetricsReceived" ∧
    (NewExporter es).StartTracesOp.name = "exporter/" ++ es.ExporterID.String ++ "/traces" ∧
    (NewExporter es).StartMetricsOp.name = "exporter/" ++ es.ExporterID.String ++ "/metrics" ∧
    (NewExporter es).StartLogsOp.name = "exporter/" ++ es.ExporterID.String ++ "/logs" ∧
    (NewScraper ss).StartMetricsOp.name =
      "scraper/" ++ ss.ReceiverID.String ++ "/" ++ ss.Scraper.String ++ "/MetricsScraped" ∧
    fakeReceiver.StartTracesOp.name = "receiver/fakeReicever/TraceDataReceived" ∧
    (fakeExporter Level.LevelNormal).StartTracesOp.name = "exporter/fakeExporter/traces" ∧
    fakeScraper.StartMetricsOp.name = "scraper/fakeReicever/fakeScraper/MetricsScraped" := by
  refine ⟨?_, ?_, ?_, ?_, ?_, ?_, ?_, by decide, by decide, by decide⟩
  · simp [NewReceiver, Receiver.StartTracesOp, Receiver.startOp, receiveLabel,
      String.append_assoc]
  · simp [NewReceiver, Receiver.StartLogsOp, Receiver.startOp, receiveLabel,
      String.append_assoc]
  · simp [NewReceiver, Receiver.StartMetricsOp, Receiver.startOp, receiveLabel,
      String.append_assoc]
  · simp [NewExporter, Exporter.StartTracesOp, Exporter.startOp, exportLabel,
      String.append_assoc]
  · simp [NewExporter, Exporter.StartMetricsOp, Exporter.startOp, exportLabel,
      String.append_assoc]
  · simp [NewExporter, Exporter.StartLogsOp, Exporter.startOp, exportLabel,
      String.append_assoc]
  · simp [NewScraper, Scraper.StartMetricsOp, String.append_assoc]

/-- C15: for every processor type string t and measure name m,
`BuildProcessorCustomMetricName t m` equals "processor/" + t + "/" + m, so equal
arguments give equal names; the two names of TestBuildProcessorCustomMetricName
come out as the test expects. -/
theorem BuildProcessorCustomMetricName_eq (t m : String) :
    BuildProcessorCustomMetricName t m = "processor/" ++ t ++ "/" ++ m ∧
    BuildProcessorCustomMetricName "test_type" "firstMeasure" =
      "processor/test_type/firstMeasure" ∧
    BuildProcessorCustomMetricName "test_type" "secondMeasure" =
      "processor/test_type/secondMeasure" := by
  refine ⟨?_, by decide, by decide⟩
  simp [BuildProcessorCustomMetricName, String.intercalate, String.intercalate.go,
    ProcessorPrefix, NameSep]

end obsreport

namespace exporterhelper

/-- C16: `wrapConsumerSender f` replaces only the queued-retry sender's consumer
sender, by `f` applied to the previous consumer sender; the exporter's `sender`
field still holds the queued-retry sender, and every other field is unchanged.
Wrapping with `f` and then `g` yields `g (f original)`.  On an exporter built by
`newBaseExporter` the entry sender is afterwards the queued-retry sender whose
consumer sender is `f` of the retrying sender around the timeout sender: the
wrapper sits between the queue and the timeout sender. -/
theorem wrapConsumerSender_replaces_consumerSender {σ : Type} (be : baseExporter σ)
    (f g : requestSender → requestSender) (level : Level) (cfg : ExporterConfig)
    (set : ExporterCreateSettings) (bs : baseSettings σ) :
    (be.wrapConsumerSender f).qrSender.consumerSender = f be.qrSender.consumerSender ∧
    (be.wrapConsumerSender f).sender = be.sender ∧
    (be.wrapConsumerSender f).qrSender.fullName = be.qrSender.fullName ∧
    (be.wrapConsumerSender f).qrSender.cfg = be.qrSender.cfg ∧
    (be.wrapConsumerSender f).Component = be.Component ∧
    (be.wrapConsumerSender f).obsrep = be.obsrep ∧
    ((be.wrapConsumerSender f).wrapConsumerSender g).qrSender.consumerSender =
      g (f be.qrSender.consumerSender) ∧
    ((newBaseExporter level cfg set bs).wrapConsumerSender f).sender = senderRef.qrSender ∧
    ((newBaseExporter level cfg set bs).wrapConsumerSender f).entrySender =
      requestSender.queuedRetry cfg.ID.String bs.QueueSettings
        (f (requestSender.retry bs.RetrySettings
          (requestSender.timeout { cfg := bs.TimeoutSettings }))) :=
  ⟨rfl, rfl, rfl, rfl, rfl, rfl, rfl, rfl, rfl⟩

theorem foldl_TimeoutSettings {σ : Type} (calls : List (optionCall σ)) (o : baseSettings σ) :
    ((calls.map optionCall.eval).foldl (fun o op => op o) o).TimeoutSettings =
      (lastTimeout calls).getD o.TimeoutSettings := by
  induction calls generalizing o with
  | nil => rfl
  | cons c cs ih =>
    simp only [List.map_cons, List.foldl_cons, ih, lastTimeout]
    cases h : lastTimeout cs with
    | some ts => rfl
    | none =>
      cases c <;>
        simp [optionCall.eval, WithStart, WithShutdown, WithTimeout, WithRetry, WithQueue,
          WithCapabilities, WithResourceToTelemetryConversion]

theorem foldl_RetrySettings {σ : Type} (calls : List (optionCall σ)) (o : baseSettings σ) :
    ((calls.map optionCall.eval).foldl (fun o op => op o) o).RetrySettings =
      (lastRetry calls).getD o.RetrySettings := by
  induction calls generalizing o with
  | nil => rfl
  | cons c cs ih =>
    simp only [List.map_cons, List.foldl_cons, ih, lastRetry]
    cases h : lastRetry cs with
    | some rs => rfl
    | none =>
      cases c <;>
        simp [optionCall.eval, WithStart, WithShutdown, WithTimeout, WithRetry, WithQueue,
          WithCapabilities, WithResourceToTelemetryConversion]

theorem foldl_QueueSettings {σ : Type} (calls : List (optionCall σ)) (o : baseSettings σ) :
    ((calls.map optionCall.eval).foldl (fun o op => op o) o).QueueSettings =
      (lastQueue calls).getD o.QueueSettings := by
  induction calls generalizing o with
  | nil => rfl
  | cons c cs ih =>
    simp only [List.map_cons, List.foldl_cons, ih, lastQueue]
    cases h : lastQueue cs with
    | some qs => rfl
    | none =>
      cases c <;>
        simp [optionCall.eval, WithStart, WithShutdown, WithTimeout, WithRetry, WithQueue,
          WithCapabilities, WithResourceToTelemetryConversion]

/-- C17: `fromOptions` applies the options left to right on top of the defaults
(the settings after one more option are that option applied to the settings
before it), and each of WithTimeout, WithRetry and WithQueue overwrites only
its own settings field: every other field of the settings, the other two
settings groups, the component options, the consumer options and the
resource-to-telemetry settings, is left as it was.  After `fromOptions(opts...)`
the TimeoutSettings equal the argument of the last WithTimeout in opts, or the
5 s default if there is none, likewise the retry and queue settings with their
disabled defaults. -/
theorem fromOptions_last_option_wins {σ : Type} (calls : List (optionCall σ))
    (opts : List (ExporterOption σ)) (op : ExporterOption σ) (o : baseSettings σ)
    (ts : TimeoutSettings) (rs : RetrySettings) (qs : QueueSettings) :
    fromOptions (opts ++ [op]) = op (fromOptions opts) ∧
    (fromOptions (calls.map optionCall.eval)).TimeoutSettings =
      (lastTimeout calls).getD { Timeout := 5 * Second } ∧
    (fromOptions (calls.map optionCall.eval)).RetrySettings =
      (lastRetry calls).getD
        { Enabled := false, initialInterval := 0, maxInterval := 0, maxElapsedTime := 0,
          maxAttempts := 0 } ∧
    (fromOptions (calls.map optionCall.eval)).QueueSettings =
      (lastQueue calls).getD { Enabled := false, capacity := 0, numConsumers := 0 } ∧
    ((WithTimeout ts o).TimeoutSettings = ts ∧ (WithTimeout ts o).RetrySettings = o.RetrySettings ∧
      (WithTimeout ts o).QueueSettings = o.QueueSettings ∧
      (WithTimeout ts o).componentOptions = o.componentOptions ∧
      (WithTimeout ts o).consumerOptions = o.consumerOptions ∧
      (WithTimeout ts o).ResourceToTelemetrySettings = o.ResourceToTelemetrySettings) ∧
    ((WithRetry rs o).RetrySettings = rs ∧ (WithRetry rs o).TimeoutSettings = o.TimeoutSettings ∧
      (WithRetry rs o).QueueSettings = o.QueueSettings ∧
      (WithRetry rs o).componentOptions = o.componentOptions ∧
      (WithRetry rs o).consumerOptions = o.consumerOptions ∧
      (WithRetry rs o).ResourceToTelemetrySettings = o.ResourceToTelemetrySettings) ∧
    ((WithQueue qs o).QueueSettings = qs ∧ (WithQueue qs o).TimeoutSettings = o.TimeoutSettings ∧
      (WithQueue qs o).RetrySettings = o.RetrySettings ∧
      (WithQueue qs o).componentOptions = o.componentOptions ∧
      (WithQueue qs o).consumerOptions = o.consumerOptions ∧
      (WithQueue qs o).ResourceToTelemetrySettings = o.ResourceToTelemetrySettings) := by
  refine ⟨?_, ?_, ?_, ?_, ⟨rfl, rfl, rfl, rfl, rfl, rfl⟩, ⟨rfl, rfl, rfl, rfl, rfl, rfl⟩,
    ⟨rfl, rfl, rfl, rfl, rfl, rfl⟩⟩
  · simp [fromOptions, List.foldl_append]
  · simp only [fromOptions]
    rw [foldl_TimeoutSettings]
    rfl
  · simp only [fromOptions]
    rw [foldl_RetrySettings]
  · simp only [fromOptions]
    rw [foldl_QueueSettings]

end exporterhelper
